import Mathlib

/-!
Verification of the gardener-extensions mutating-webhook core.

This file gives a shallow embedding, in Lean 4, of the parts of the
gardener-extensions repository that the verified properties speak about:

* the Kubernetes object fragments mutated by the control-plane webhooks
  (containers, pod specs, stateful sets, annotations);
* the AWS `controlplanebackup` ensurer
  (`controllers/provider-aws/pkg/webhook/controlplanebackup/ensurer.go`);
* the generic mutation dispatcher of `genericmutator` (modelled from the
  spec, the Go implementation is known only through its tests here);
* the container upsert helpers of `pkg/webhook` (modelled from the spec);
* the checksum-annotation computation (SHA-256 over the JSON encoding of
  a secret's data, modelled from the spec and pinned by the test corpus);
* the OpenStack values provider's `getConfigChartValues`
  (`controllers/provider-openstack/pkg/controlplane/valuesprovider.go`).

Go `nil` maps and empty maps are both modelled as the empty association
list; Go `*string` fields are modelled as `Option String`; fallible Go
functions returning `error` are modelled with `Except String`.
-/

namespace Gardener

/-! ## Kubernetes data model (corev1 / appsv1 fragments) -/

/-- corev1.SecretKeySelector: selects a key of a named Secret. -/
structure SecretKeySelector where
  key : String
  localObjectReferenceName : String
deriving DecidableEq, Repr

/-- corev1.EnvVarSource (only the secretKeyRef variant is used here). -/
structure EnvVarSource where
  secretKeyRef : Option SecretKeySelector := none
deriving DecidableEq, Repr

/-- corev1.EnvVar. -/
structure EnvVar where
  name : String
  value : String := ""
  valueFrom : Option EnvVarSource := none
deriving DecidableEq, Repr

/-- corev1.VolumeMount. -/
structure VolumeMount where
  name : String
  mountPath : String
deriving DecidableEq, Repr

/-- corev1.Container (the fields touched by the embedded code). -/
structure Container where
  name : String
  image : String := ""
  command : List String := []
  env : List EnvVar := []
  volumeMounts : List VolumeMount := []
deriving DecidableEq, Repr

/-- corev1.Volume (name plus optional secret source). -/
structure Volume where
  name : String
  secretName : Option String := none
deriving DecidableEq, Repr

/-- corev1.PodSpec (containers and volumes). -/
structure PodSpec where
  containers : List Container := []
  volumes : List Volume := []
deriving DecidableEq, Repr

/-- corev1.PodTemplateSpec: annotations map plus the pod spec.  A Go `nil`
annotations map is modelled as the empty list. -/
structure PodTemplateSpec where
  annotations : List (String × String) := []
  spec : PodSpec := {}
deriving DecidableEq, Repr

/-- appsv1.StatefulSetSpec (only the pod template is mutated). -/
structure StatefulSetSpec where
  template : PodTemplateSpec := {}
deriving DecidableEq, Repr

/-- appsv1.StatefulSet: object meta (name, namespace) plus spec. -/
structure StatefulSet where
  name : String
  ns : String := ""
  spec : StatefulSetSpec := {}
deriving DecidableEq, Repr

/-- corev1.Secret: object meta plus the data payload
(`map[string][]byte`, bytes modelled as `List Nat`). -/
structure Secret where
  name : String
  ns : String := ""
  data : List (String × List Nat) := []
deriving DecidableEq, Repr

/-! ## Cluster bundle (extensionscontroller.Cluster) -/

/-- gardencorev1alpha1.SeedBackup (presence is all the ensurer inspects). -/
structure SeedBackup where
  provider : String := ""
deriving DecidableEq, Repr

/-- gardencorev1alpha1.Seed (spec.backup only). -/
structure CoreSeed where
  backup : Option SeedBackup := none
deriving DecidableEq, Repr

/-- gardencorev1alpha1.Shoot: kubernetes version and status fields used by
the backup ensurer. -/
structure CoreShoot where
  kubernetesVersion : String := ""
  technicalID : String := ""
  uid : String := ""
deriving DecidableEq, Repr

/-- gardencorev1alpha1.CloudProfile: only its presence is inspected by the
embedded OpenStack code (its raw provider config is decoded separately and
passed as a `CloudProfileConfig`). -/
structure CoreCloudProfile where
  name : String := ""
deriving DecidableEq, Repr

/-- gardenv1beta1 OpenStack load-balancer class (legacy garden API). -/
structure GardenLoadBalancerClass where
  name : String
  floatingSubnetID : Option String := none
  floatingNetworkID : Option String := none
  subnetID : Option String := none
deriving DecidableEq, Repr

/-- gardenv1beta1 OpenStack floating pool constraint (legacy garden API). -/
structure GardenFloatingPool where
  name : String
  loadBalancerClasses : List GardenLoadBalancerClass := []
deriving DecidableEq, Repr

/-- gardenv1beta1 OpenStack cloud profile fragment (legacy garden API). -/
structure GardenOpenStackProfile where
  keyStoneURL : String := ""
  dhcpDomain : Option String := none
  requestTimeout : Option String := none
  constraintsFloatingPools : List GardenFloatingPool := []
deriving DecidableEq, Repr

/-- gardenv1beta1.CloudProfile (legacy garden API, OpenStack fragment). -/
structure GardenCloudProfile where
  openstack : GardenOpenStackProfile := {}
deriving DecidableEq, Repr

/-- gardenv1beta1.Shoot (legacy garden API, fields used here). -/
structure GardenShoot where
  kubernetesVersion : String := ""
  technicalID : String := ""
  uid : String := ""
  openstackFloatingPoolName : String := ""
deriving DecidableEq, Repr

/-- gardenv1beta1.Seed (legacy garden API, backup spec only). -/
structure GardenSeed where
  backup : Option SeedBackup := none
deriving DecidableEq, Repr

/-- extensionscontroller.Cluster: read-only bundle of the decoded
CloudProfile, Seed and Shoot, in both the legacy garden API flavour and
the core v1alpha1 flavour (each side may be absent). -/
structure Cluster where
  cloudProfile : Option GardenCloudProfile := none
  seed : Option GardenSeed := none
  shoot : Option GardenShoot := none
  coreCloudProfile : Option CoreCloudProfile := none
  coreSeed : Option CoreSeed := none
  coreShoot : Option CoreShoot := none
deriving DecidableEq, Repr

/-- Modelled from the spec: extensionscontroller.GetKubernetesVersion
(not under src/) — the shoot's Kubernetes version, from the legacy shoot
if present, else from the core shoot, else empty. -/
def GetKubernetesVersion (cluster : Cluster) : String :=
  match cluster.shoot with
  | some s => s.kubernetesVersion
  | none =>
    match cluster.coreShoot with
    | some s => s.kubernetesVersion
    | none => ""

/-- Modelled from the spec: extensionscontroller.GetTechnicalID
(not under src/) — the shoot status technical ID. -/
def GetTechnicalID (cluster : Cluster) : String :=
  match cluster.shoot with
  | some s => s.technicalID
  | none =>
    match cluster.coreShoot with
    | some s => s.technicalID
    | none => ""

/-- Modelled from the spec: extensionscontroller.GetUID (not under src/)
— the shoot's UID. -/
def GetUID (cluster : Cluster) : String :=
  match cluster.shoot with
  | some s => s.uid
  | none =>
    match cluster.coreShoot with
    | some s => s.uid
    | none => ""

/-- Modelled from the spec: extensionscontroller.IsSeedBackupNil (not
under src/) — true when the Seed carries no backup spec ("backup
configured" means a non-nil Seed backup spec, spec §4.4). -/
def IsSeedBackupNil (cluster : Cluster) : Bool :=
  match cluster.seed with
  | some s => s.backup.isNone
  | none =>
    match cluster.coreSeed with
    | some s => s.backup.isNone
    | none => true

/-! ## Well-known object names (gardener v1alpha1 constants) -/

def DeploymentNameKubeAPIServer : String := "kube-apiserver"
def DeploymentNameKubeControllerManager : String := "kube-controller-manager"
def DeploymentNameKubeScheduler : String := "kube-scheduler"
def StatefulSetNameETCDMain : String := "etcd-main"
def StatefulSetNameETCDEvents : String := "etcd-events"

/-- controlplane.BackupRestoreContainerName. -/
def BackupRestoreContainerName : String := "backup-restore"

/-- controlplane.EtcdMainVolumeClaimTemplateName: the dedicated
volume-claim-template name used for etcd-main. -/
def EtcdMainVolumeClaimTemplateName : String := "main-etcd"

/-! ## Generic association-map helpers (Go map assignment / lookup) -/

/-- Go map assignment `m[k] = v` on a key-unique association list:
replace the first binding of the key, else append. -/
def mapSet {α : Type} : List (String × α) → String → α → List (String × α)
  | [], k, v => [(k, v)]
  | (k', v') :: rest, k, v =>
    if k' == k then (k, v) :: rest else (k', v') :: mapSet rest k v

/-- Go map lookup `m[k]`. -/
def mapLookup {α : Type} : List (String × α) → String → Option α
  | [], _ => none
  | (k', v') :: rest, k => if k' == k then some v' else mapLookup rest k

theorem mapLookup_mapSet_self {α : Type} (m : List (String × α)) (k : String) (v : α) :
    mapLookup (mapSet m k v) k = some v := by
  induction m with
  | nil => simp [mapSet, mapLookup]
  | cons hd tl ih =>
    by_cases h : hd.1 == k
    · simp [mapSet, mapLookup, h]
    · simpa [mapSet, mapLookup, h] using ih

theorem mapLookup_mapSet_ne {α : Type} (m : List (String × α)) (k k' : String) (v : α)
    (h : k' ≠ k) : mapLookup (mapSet m k v) k' = mapLookup m k' := by
  induction m with
  | nil =>
    simp only [mapSet, mapLookup]
    rw [if_neg (by simpa [beq_iff_eq] using fun hh => h hh.symm)]
  | cons hd tl ih =>
    by_cases hk : hd.1 == k
    · have hk' : (k == k') = false := by
        simpa [beq_iff_eq] using fun hh => h hh.symm
      have hhd : (hd.1 == k') = false := by
        have : hd.1 = k := by simpa [beq_iff_eq] using hk
        simpa [beq_iff_eq, this] using fun hh => h hh.symm
      simp [mapSet, mapLookup, hk, hk', hhd]
    · by_cases hhd : hd.1 == k'
      · simp [mapSet, mapLookup, hk, hhd]
      · simp [mapSet, mapLookup, hk, hhd, ih]

theorem mapSet_mapSet_self {α : Type} (m : List (String × α)) (k : String) (v : α) :
    mapSet (mapSet m k v) k v = mapSet m k v := by
  induction m with
  | nil => simp [mapSet]
  | cons hd tl ih =>
    by_cases h : hd.1 == k
    · simp [mapSet, h]
    · simp [mapSet, h, ih]

/-! ## Container upsert helpers (pkg/webhook) -/

/-- Modelled from the spec: extensionswebhook.ContainerWithName (not
under src/) — find the container with the given name, if any. -/
def ContainerWithName (containers : List Container) (name : String) : Option Container :=
  containers.find? (fun c => c.name == name)

/-- Modelled from the spec: extensionswebhook.EnsureContainerWithName
(not under src/) — "replace-if-present by name else append, preserving
index of existing element" (spec §4.2). -/
def EnsureContainerWithName : List Container → Container → List Container
  | [], c => [c]
  | x :: xs, c =>
    if x.name == c.name then c :: xs else x :: EnsureContainerWithName xs c

theorem containerWithName_ensure (cs : List Container) (c : Container) :
    ContainerWithName (EnsureContainerWithName cs c) c.name = some c := by
  induction cs with
  | nil => simp [EnsureContainerWithName, ContainerWithName, List.find?]
  | cons x xs ih =>
    by_cases h : x.name == c.name
    · simp [EnsureContainerWithName, ContainerWithName, List.find?, h]
    · simpa [EnsureContainerWithName, ContainerWithName, List.find?, h] using ih

theorem ensureContainerWithName_idem (cs : List Container) (c : Container) :
    EnsureContainerWithName (EnsureContainerWithName cs c) c = EnsureContainerWithName cs c := by
  induction cs with
  | nil => simp [EnsureContainerWithName]
  | cons x xs ih =>
    by_cases h : x.name == c.name
    · simp [EnsureContainerWithName, h]
    · simp [EnsureContainerWithName, h, ih]

/-! ## Command-line flag extraction -/

/-- Strip a leading character sequence: `stripPref p s` is `some rest`
when `s = p ++ rest`, else `none`. -/
def stripPref : List Char → List Char → Option (List Char)
  | [], s => some s
  | _ :: _, [] => none
  | a :: ps, b :: ss => if a = b then stripPref ps ss else none

theorem stripPref_append (p s : List Char) : stripPref p (p ++ s) = some s := by
  induction p with
  | nil => simp [stripPref]
  | cons a ps ih => simp [stripPref, ih]

/-- True when the two lists disagree at some position covered by both. -/
def mismatchWithin : List Char → List Char → Bool
  | a :: ps, b :: ls => if a = b then mismatchWithin ps ls else true
  | _, _ => false

theorem stripPref_eq_none_of_mismatchWithin (p l : List Char)
    (h : mismatchWithin p l = true) (s : List Char) : stripPref p (l ++ s) = none := by
  induction p generalizing l with
  | nil => cases l <;> simp [mismatchWithin] at h
  | cons a ps ih =>
    cases l with
    | nil => simp [mismatchWithin] at h
    | cons b ls =>
      by_cases hab : a = b
      · simp only [mismatchWithin, if_pos hab] at h
        simp [stripPref, hab, ih ls h]
      · simp [stripPref, hab]

/-- Extract the value of the first command element carrying the given
`--flag=` style leading text (spec §4.2: string-prefix match on `--flag=`
style arguments). -/
def getCommandFlagValue (fp : String) : List String → Option String
  | [] => none
  | a :: rest =>
    match stripPref fp.data a.data with
    | some rem => some (String.mk rem)
    | none => getCommandFlagValue fp rest

/-! ## Backup-restore container construction (pkg/webhook/controlplane) -/

/-- Modelled from the spec: controlplane.GetBackupRestoreContainer (not
under src/) — builds the backup-restore sidecar container from the etcd
name, the volume-claim-template name, the backup schedule, the storage
provider, the backup prefix, the image, and additional command args, env
vars and volume mounts (spec §4.4). -/
def GetBackupRestoreContainer (name volumeClaimTemplateName schedule provider pref image : String)
    (commandArgs : List String) (env : List EnvVar) (volumeMounts : List VolumeMount) :
    Container :=
  { name := BackupRestoreContainerName
    image := image
    command :=
      ["etcdbrctl", "server",
       "--schedule=" ++ schedule,
       "--storage-provider=" ++ provider,
       "--store-prefix=" ++ pref,
       "--endpoints=https://" ++ name ++ ":2379"] ++ commandArgs
    env := env
    volumeMounts := { name := volumeClaimTemplateName, mountPath := "/var/etcd/data" } :: volumeMounts }

/-- The backup schedule carried by a container's command line. -/
def backupScheduleOf (c : Container) : Option String :=
  getCommandFlagValue "--schedule=" c.command

/-- The storage provider carried by a container's command line. -/
def storageProviderOf (c : Container) : Option String :=
  getCommandFlagValue "--storage-provider=" c.command

/-- The backup prefix carried by a container's command line. -/
def storePrefOf (c : Container) : Option String :=
  getCommandFlagValue "--store-prefix=" c.command

/-- The volume-claim-template name a backup-restore container mounts its
data volume from. -/
def volumeClaimTemplateNameOf (c : Container) : Option String :=
  c.volumeMounts.head?.map (fun v => v.name)

theorem backupScheduleOf_GBRC (name vct schedule provider pref image : String)
    (args : List String) (env : List EnvVar) (vms : List VolumeMount) :
    backupScheduleOf
      (GetBackupRestoreContainer name vct schedule provider pref image args env vms) =
      some schedule := by
  have h1 : stripPref "--schedule=".data "etcdbrctl".data = none := by decide
  have h2 : stripPref "--schedule=".data "server".data = none := by decide
  have h3 : stripPref "--schedule=".data ("--schedule=" ++ schedule).data = some schedule.data := by
    rw [String.data_append]
    exact stripPref_append _ _
  simp only [backupScheduleOf, GetBackupRestoreContainer, List.cons_append, List.nil_append,
    getCommandFlagValue, h1, h2, h3]

theorem storageProviderOf_GBRC (name vct schedule provider pref image : String)
    (args : List String) (env : List EnvVar) (vms : List VolumeMount) :
    storageProviderOf
      (GetBackupRestoreContainer name vct schedule provider pref image args env vms) =
      some provider := by
  have h1 : stripPref "--storage-provider=".data "etcdbrctl".data = none := by decide
  have h2 : stripPref "--storage-provider=".data "server".data = none := by decide
  have h3 : stripPref "--storage-provider=".data ("--schedule=" ++ schedule).data = none := by
    rw [String.data_append]
    exact stripPref_eq_none_of_mismatchWithin _ _ (by decide) _
  have h4 : stripPref "--storage-provider=".data ("--storage-provider=" ++ provider).data =
      some provider.data := by
    rw [String.data_append]
    exact stripPref_append _ _
  simp only [storageProviderOf, GetBackupRestoreContainer, List.cons_append, List.nil_append,
    getCommandFlagValue, h1, h2, h3, h4]

theorem storePrefOf_GBRC (name vct schedule provider pref image : String)
    (args : List String) (env : List EnvVar) (vms : List VolumeMount) :
    storePrefOf
      (GetBackupRestoreContainer name vct schedule provider pref image args env vms) =
      some pref := by
  have h1 : stripPref "--store-prefix=".data "etcdbrctl".data = none := by decide
  have h2 : stripPref "--store-prefix=".data "server".data = none := by decide
  have h3 : stripPref "--store-prefix=".data ("--schedule=" ++ schedule).data = none := by
    rw [String.data_append]
    exact stripPref_eq_none_of_mismatchWithin _ _ (by decide) _
  have h4 : stripPref "--store-prefix=".data ("--storage-provider=" ++ provider).data = none := by
    rw [String.data_append]
    exact stripPref_eq_none_of_mismatchWithin _ _ (by decide) _
  have h5 : stripPref "--store-prefix=".data ("--store-prefix=" ++ pref).data =
      some pref.data := by
    rw [String.data_append]
    exact stripPref_append _ _
  simp only [storePrefOf, GetBackupRestoreContainer, List.cons_append, List.nil_append,
    getCommandFlagValue, h1, h2, h3, h4, h5]

/-! ## Backup schedule determination -/

/-- Modelled from the spec: the deterministic default-schedule
computation used by controlplane.DetermineBackupSchedule (not under
src/): a daily schedule whose hour is derived deterministically from the
cluster (spec §3: derived fields are "deterministic functions of Cluster
+ static provider constants"). -/
def defaultBackupSchedule (cluster : Cluster) : String :=
  "0 " ++ toString ((GetUID cluster).data.foldl (fun acc c => acc + c.toNat) 0 % 24) ++ " * * *"

/-- Modelled from the spec: controlplane.DetermineBackupSchedule (not
under src/) — "default schedule is deterministic given existing container
state" (spec §8): an already-present schedule on the existing
backup-restore container is kept, otherwise the default is computed from
the cluster. -/
def DetermineBackupSchedule (existingContainer : Option Container) (cluster : Cluster) :
    Except String String :=
  match existingContainer with
  | some c =>
    match backupScheduleOf c with
    | some s => .ok s
    | none => .ok (defaultBackupSchedule cluster)
  | none => .ok (defaultBackupSchedule cluster)

/-! ## Checksum-annotation computation (spec §4.3)

The hash pinned by the test corpus is the SHA-256 hex digest of the JSON
encoding (sorted keys, standard base64 values) of the secret's
`map[string][]byte` data, exactly what Go's `json.Marshal` produces on
that type. -/

def base64Chars : List Char :=
  "ABCDEFGHIJKLMNOPQRSTUVWXYZabcdefghijklmnopqrstuvwxyz0123456789+/".data

def base64Char (n : Nat) : Char := base64Chars.getD n 'A'

/-- Standard base64 encoding (RFC 4648, with padding) of a byte list. -/
def base64Encode : List Nat → String
  | [] => ""
  | [a] => String.mk [base64Char (a / 4), base64Char (a % 4 * 16)] ++ "=="
  | [a, b] =>
    String.mk [base64Char (a / 4), base64Char (a % 4 * 16 + b / 16),
      base64Char (b % 16 * 4)] ++ "="
  | a :: b :: c :: rest =>
    String.mk [base64Char (a / 4), base64Char (a % 4 * 16 + b / 16),
      base64Char (b % 16 * 4 + c / 64), base64Char (c % 64)] ++ base64Encode rest

/-- Insert an entry into a key-sorted list of secret-data entries. -/
def insertByKey (kv : String × List Nat) :
    List (String × List Nat) → List (String × List Nat)
  | [] => [kv]
  | x :: xs => if kv.1 < x.1 then kv :: x :: xs else x :: insertByKey kv xs

/-- Sort secret-data entries by key, as Go's `json.Marshal` does for
map keys. -/
def sortByKey : List (String × List Nat) → List (String × List Nat)
  | [] => []
  | x :: xs => insertByKey x (sortByKey xs)

/-- JSON encoding of a secret's `map[string][]byte` data, as produced by
Go's `json.Marshal`: keys sorted, byte values base64-encoded.  (Key
escaping is not modelled; the keys appearing here are plain.) -/
def jsonSecretData (data : List (String × List Nat)) : String :=
  "\x7b" ++
    String.intercalate ","
      ((sortByKey data).map (fun kv => "\"" ++ kv.1 ++ "\":\"" ++ base64Encode kv.2 ++ "\"")) ++
    "\x7d"

/-- The UTF-8 bytes of an ASCII string (all strings hashed here are
ASCII). -/
def strBytes (s : String) : List Nat := s.data.map (fun c => c.toNat)

/-! ### SHA-256 (FIPS 180-4) over byte lists, words as `Nat % 2^32` -/

def w32 (n : Nat) : Nat := n % 4294967296

/-- XOR of three words (the SHA-256 sigma and maj shapes). -/
def xor3 (a b c : Nat) : Nat := a ^^^ (b ^^^ c)

def rotr32 (x n : Nat) : Nat := w32 (Nat.lor (x >>> n) (x <<< (32 - n)))

def bigSigma0 (x : Nat) : Nat := xor3 (rotr32 x 2) (rotr32 x 13) (rotr32 x 22)
def bigSigma1 (x : Nat) : Nat := xor3 (rotr32 x 6) (rotr32 x 11) (rotr32 x 25)
def smallSigma0 (x : Nat) : Nat := xor3 (rotr32 x 7) (rotr32 x 18) (x >>> 3)
def smallSigma1 (x : Nat) : Nat := xor3 (rotr32 x 17) (rotr32 x 19) (x >>> 10)

/-- The 64 SHA-256 round constants, in decimal. -/
def sha256K : List Nat :=
  [1116352408, 1899447441, 3049323471, 3921009573, 961987163, 1508970993,
   2453635748, 2870763221, 3624381080, 310598401, 607225278, 1426881987,
   1925078388, 2162078206, 2614888103, 3248222580, 3835390401, 4022224774,
   264347078, 604807628, 770255983, 1249150122, 1555081692, 1996064986,
   2554220882, 2821834349, 2952996808, 3210313671, 3336571891, 3584528711,
   113926993, 338241895, 666307205, 773529912, 1294757372, 1396182291,
   1695183700, 1986661051, 2177026350, 2456956037, 2730485921, 2820302411,
   3259730800, 3345764771, 3516065817, 3600352804, 4094571909, 275423344,
   430227734, 506948616, 659060556, 883997877, 958139571, 1322822218,
   1537002063, 1747873779, 1955562222, 2024104815, 2227730452, 2361852424,
   2428436474, 2756734187, 3204031479, 3329325298]

/-- The eight SHA-256 initial hash words, in decimal. -/
def sha256H0 : List Nat :=
  [1779033703, 3144134277, 1013904242, 2773480762, 1359893119, 2600822924,
   528734635, 1541459225]

/-- SHA-256 padding: append 0x80, zero bytes to 56 mod 64, then the
bit length as 8 big-endian bytes. -/
def sha256Pad (msg : List Nat) : List Nat :=
  let len := msg.length
  let bitLen := len * 8
  let zeros := (64 + 56 - (len + 1) % 64) % 64
  msg ++ [128] ++ List.replicate zeros 0 ++
    (List.range 8).map (fun i => bitLen >>> ((7 - i) * 8) % 256)

/-- Group bytes into big-endian 32-bit words. -/
def bytesToWords : List Nat → List Nat
  | a :: b :: c :: d :: rest => (a * 16777216 + b * 65536 + c * 256 + d) :: bytesToWords rest
  | _ => []

/-- Split a word list into 16-word blocks (`fuel` bounds the number of
blocks). -/
def wordsToBlocksAux : Nat → List Nat → List (List Nat)
  | 0, _ => []
  | fuel + 1, ws => ws.take 16 :: wordsToBlocksAux fuel (ws.drop 16)

def wordsToBlocks (ws : List Nat) : List (List Nat) :=
  wordsToBlocksAux (ws.length / 16) ws

/-- Append the next word of the SHA-256 message schedule. -/
def scheduleStep (ws : List Nat) : List Nat :=
  let n := ws.length
  ws ++ [w32 (smallSigma1 (ws.getD (n - 2) 0) + ws.getD (n - 7) 0 +
    smallSigma0 (ws.getD (n - 15) 0) + ws.getD (n - 16) 0)]

/-- Extend the 16-word block to the full 64-word schedule. -/
def buildSchedule (ws : List Nat) : Nat → List Nat
  | 0 => ws
  | n + 1 => scheduleStep (buildSchedule ws n)

/-- One SHA-256 compression round on the 8-word working state. -/
def sha256Round (s : List Nat) (kw : Nat × Nat) : List Nat :=
  match s with
  | [a, b, c, d, e, f, g, h] =>
    let ch := Nat.xor (Nat.land e f) (Nat.land (Nat.xor e 4294967295) g)
    let maj := xor3 (Nat.land a b) (Nat.land a c) (Nat.land b c)
    let t1 := w32 (h + bigSigma1 e + ch + kw.1 + kw.2)
    let t2 := w32 (bigSigma0 a + maj)
    [w32 (t1 + t2), a, b, c, w32 (d + t1), e, f, g]
  | s => s

/-- Process one 16-word block, updating the 8-word hash state. -/
def sha256Block (hstate : List Nat) (block : List Nat) : List Nat :=
  let ws := buildSchedule block 48
  let final := (sha256K.zip ws).foldl sha256Round hstate
  (hstate.zip final).map (fun p => w32 (p.1 + p.2))

def hexDigit (n : Nat) : Char := "0123456789abcdef".data.getD n '0'

def toHex32 (n : Nat) : String :=
  String.mk ((List.range 8).map (fun i => hexDigit (n >>> ((7 - i) * 4) % 16)))

/-- SHA-256 hex digest of a byte list. -/
def sha256Hex (msg : List Nat) : String :=
  String.join
    (((wordsToBlocks (bytesToWords (sha256Pad msg))).foldl sha256Block sha256H0).map toHex32)

/-- Modelled from the spec: gardener utils.ComputeChecksum (not under
src/) — the "stable content hash over its data payload" (spec §4.3):
SHA-256 hex digest of the JSON-marshalled secret data. -/
def ComputeChecksum (data : List (String × List Nat)) : String :=
  sha256Hex (strBytes (jsonSecretData data))

/-- Modelled from the spec: controlplane.EnsureSecretChecksumAnnotation
(not under src/, singular in the Go source) — fetch the referenced
secret (NotFound propagates as an error), write
`checksum/secret-<name> = <digest>` into the pod template's annotations,
creating the map if absent (spec §4.3). -/
def EnsureSecretChecksumAnnotations (getSecret : String → String → Option Secret)
    (template : PodTemplateSpec) (ns name : String) : Except String PodTemplateSpec :=
  match getSecret ns name with
  | none => .error ("could not get secret '" ++ ns ++ "/" ++ name ++ "'")
  | some s =>
    .ok { template with
      annotations :=
        mapSet template.annotations ("checksum/secret-" ++ name) (ComputeChecksum s.data) }

/-! ## AWS controlplanebackup ensurer
(controllers/provider-aws/pkg/webhook/controlplanebackup/ensurer.go) -/

/-- provider-aws/pkg/aws constant: name of the backup-credentials secret. -/
def awsBackupSecretName : String := "etcd-backup"

/-- provider-aws/pkg/aws constant: AWS storage provider name. -/
def awsStorageProviderName : String := "S3"

/-- provider-aws/pkg/aws constant: backup-restore image name. -/
def awsETCDBackupRestoreImageName : String := "etcd-backup-restore"

def awsBucketName : String := "bucketName"
def awsRegion : String := "region"
def awsAccessKeyID : String := "accessKeyID"
def awsSecretAccessKey : String := "secretAccessKey"

/-- gardener common.GenerateBackupEntryName: the backup prefix is always
`<technical-ID>--<cluster-UID>` (spec §4.4). -/
def GenerateBackupEntryName (technicalID uid : String) : String :=
  technicalID ++ "--" ++ uid

/-- imagevector image source: name, repository and optional tag. -/
structure ImageSource where
  name : String
  repository : String
  tag : Option String := none
deriving DecidableEq, Repr

/-- `Image.String()`: `repository:tag` (or just the repository). -/
def imageString (i : ImageSource) : String :=
  match i.tag with
  | some t => i.repository ++ ":" ++ t
  | none => i.repository

/-- Modelled from the spec: imagevector.FindImage (external collaborator,
spec §6: "resolves a container image reference; fails if no image matches
the name/version constraint"); the sampled image vectors carry no version
constraints, so the lookup is by name. -/
def FindImage (iv : List ImageSource) (name targetVersion : String) : Except String ImageSource :=
  match iv.find? (fun i => i.name == name) with
  | some i => .ok i
  | none => .error ("could not find image \"" ++ name ++ "\" for version " ++ targetVersion)

/-- config.ETCDBackup: optional explicit schedule override. -/
structure ETCDBackup where
  schedule : Option String := none
deriving DecidableEq, Repr

/-- The AWS controlplanebackup ensurer: the ETCDBackup config and image
vector from the constructor, and the injected client modelled as a pure
secret lookup (spec §5: the client is set once at startup and treated as
read-only). -/
structure Ensurer where
  etcdBackup : Option ETCDBackup := none
  imageVector : List ImageSource := []
  getSecret : String → String → Option Secret := fun _ _ => none

/-- The env vars of the backup-restore container for etcd-main with
backup configured (ensurer.go lines 107–146). -/
def awsBackupEnv : List EnvVar :=
  [{ name := "STORAGE_CONTAINER",
     valueFrom := some ⟨some ⟨awsBucketName, awsBackupSecretName⟩⟩ },
   { name := "AWS_REGION",
     valueFrom := some ⟨some ⟨awsRegion, awsBackupSecretName⟩⟩ },
   { name := "AWS_ACCESS_KEY_ID",
     valueFrom := some ⟨some ⟨awsAccessKeyID, awsBackupSecretName⟩⟩ },
   { name := "AWS_SECRET_ACCESS_KEY",
     valueFrom := some ⟨some ⟨awsSecretAccessKey, awsBackupSecretName⟩⟩ }]

/-- ensurer.ensureBackupRestoreContainer (ensurer.go lines 85–162):
resolve the image, pick provider / prefix / env / volume-claim-template
name by stateful-set name and backup configuration, pick the schedule
(explicit override else determined), and build the container. -/
def ensureBackupRestoreContainer (e : Ensurer) (existingContainer : Option Container)
    (name : String) (cluster : Cluster) : Except String Container :=
  match FindImage e.imageVector awsETCDBackupRestoreImageName (GetKubernetesVersion cluster) with
  | .error msg => .error ("could not find image " ++ awsETCDBackupRestoreImageName ++ ": " ++ msg)
  | .ok image =>
    let pp : String × String × List EnvVar × String :=
      if name == StatefulSetNameETCDMain then
        if IsSeedBackupNil cluster then
          ("", "", [], EtcdMainVolumeClaimTemplateName)
        else
          (awsStorageProviderName,
           GenerateBackupEntryName (GetTechnicalID cluster) (GetUID cluster),
           awsBackupEnv, EtcdMainVolumeClaimTemplateName)
      else ("", "", [], name)
    let scheduleRes : Except String String :=
      match e.etcdBackup with
      | some b =>
        match b.schedule with
        | some s => .ok s
        | none => DetermineBackupSchedule existingContainer cluster
      | none => DetermineBackupSchedule existingContainer cluster
    match scheduleRes with
    | .error msg => .error msg
    | .ok schedule =>
      .ok (GetBackupRestoreContainer name pp.2.2.2 schedule pp.1 pp.2.1 (imageString image)
        [] pp.2.2.1 [])

/-- ensurer.ensureContainers (ensurer.go lines 68–76): look up the
existing backup-restore container, rebuild it, and upsert it into the
pod spec. -/
def ensureContainers (e : Ensurer) (ps : PodSpec) (name : String) (cluster : Cluster) :
    Except String PodSpec :=
  match ensureBackupRestoreContainer e (ContainerWithName ps.containers BackupRestoreContainerName)
      name cluster with
  | .error msg => .error msg
  | .ok c => .ok { ps with containers := EnsureContainerWithName ps.containers c }

/-- ensurer.ensureChecksumAnnotations (ensurer.go lines 78–83): only for
etcd-main with backup configured is the backup secret's checksum written
into the pod-template annotations. -/
def ensureChecksumAnnotations (e : Ensurer) (template : PodTemplateSpec) (ns name : String)
    (backupConfigured : Bool) : Except String PodTemplateSpec :=
  if name == StatefulSetNameETCDMain && backupConfigured then
    EnsureSecretChecksumAnnotations e.getSecret template ns awsBackupSecretName
  else .ok template

/-- ensurer.EnsureETCDStatefulSet (ensurer.go lines 61–66). -/
def EnsureETCDStatefulSet (e : Ensurer) (ss : StatefulSet) (cluster : Cluster) :
    Except String StatefulSet :=
  match ensureContainers e ss.spec.template.spec ss.name cluster with
  | .error msg => .error msg
  | .ok ps =>
    match ensureChecksumAnnotations e { ss.spec.template with spec := ps } ss.ns ss.name
        (!IsSeedBackupNil cluster) with
    | .error msg => .error msg
    | .ok template => .ok { ss with spec := { ss.spec with template := template } }

/-! ## Generic mutation dispatcher (pkg/webhook/controlplane/genericmutator)

Only the dispatcher's tests are under src/; the dispatcher itself is
modelled from the spec (§4.1). -/

/-- corev1.Service (name, namespace, opaque payload). -/
structure Service where
  name : String
  ns : String := ""
  payload : String := ""
deriving DecidableEq, Repr

/-- appsv1.Deployment (name, namespace, opaque payload). -/
structure Deployment where
  name : String
  ns : String := ""
  payload : String := ""
deriving DecidableEq, Repr

/-- extensionsv1alpha1.OperatingSystemConfig (name, namespace, opaque
payload; its hook chain is out of scope for the claims settled here). -/
structure OperatingSystemConfig where
  name : String
  ns : String := ""
  payload : String := ""
deriving DecidableEq, Repr

/-- An object admitted to the mutating webhook: one of the kinds the
dispatcher handles. -/
inductive MutObject where
  | service : Service → MutObject
  | deployment : Deployment → MutObject
  | statefulSet : StatefulSet → MutObject
  | osc : OperatingSystemConfig → MutObject
deriving DecidableEq, Repr

/-- The polymorphic ensurer hook set the dispatcher routes to
(genericmutator.Ensurer, modelled from the spec §4.1/§3; the
OperatingSystemConfig hook chain is bundled into one handler). -/
structure GenericEnsurer where
  ensureKubeAPIServerService : Service → Except String Service
  ensureKubeAPIServerDeployment : Deployment → Except String Deployment
  ensureKubeControllerManagerDeployment : Deployment → Except String Deployment
  ensureKubeSchedulerDeployment : Deployment → Except String Deployment
  ensureETCDStatefulSet : StatefulSet → Cluster → Except String StatefulSet
  mutateOperatingSystemConfig : OperatingSystemConfig → Except String OperatingSystemConfig

/-- Modelled from the spec: genericmutator mutator.Mutate (not under
src/, known through its tests): route by (kind, name) — Service
`kube-apiserver`; Deployments `kube-apiserver`, `kube-controller-manager`,
`kube-scheduler`; StatefulSets `etcd-main`, `etcd-events` (after loading
the owning Cluster by namespace, whose failure aborts the mutation);
OperatingSystemConfigs always run the hook chain; every other (kind,
name) passes through unmodified with no error (spec §4.1). -/
def Mutate (e : GenericEnsurer) (getCluster : String → Except String Cluster) :
    MutObject → Except String MutObject
  | .service svc =>
    if svc.name == DeploymentNameKubeAPIServer then
      MutObject.service <$> e.ensureKubeAPIServerService svc
    else .ok (.service svc)
  | .deployment dep =>
    if dep.name == DeploymentNameKubeAPIServer then
      MutObject.deployment <$> e.ensureKubeAPIServerDeployment dep
    else if dep.name == DeploymentNameKubeControllerManager then
      MutObject.deployment <$> e.ensureKubeControllerManagerDeployment dep
    else if dep.name == DeploymentNameKubeScheduler then
      MutObject.deployment <$> e.ensureKubeSchedulerDeployment dep
    else .ok (.deployment dep)
  | .statefulSet ss =>
    if ss.name == StatefulSetNameETCDMain || ss.name == StatefulSetNameETCDEvents then
      match getCluster ss.ns with
      | .error msg => .error msg
      | .ok cluster => MutObject.statefulSet <$> e.ensureETCDStatefulSet ss cluster
    else .ok (.statefulSet ss)
  | .osc o => MutObject.osc <$> e.mutateOperatingSystemConfig o

/-! ## OpenStack values provider
(controllers/provider-openstack/pkg/controlplane/valuesprovider.go,
function getConfigChartValues) -/

/-- apisopenstack.LoadBalancerClass (`*string` fields as `Option`). -/
structure LoadBalancerClass where
  name : String
  floatingSubnetID : Option String := none
  floatingNetworkID : Option String := none
  subnetID : Option String := none
deriving DecidableEq, Repr

/-- apisopenstack floating pool constraint. -/
structure OSFloatingPool where
  name : String
  loadBalancerClasses : List LoadBalancerClass := []
deriving DecidableEq, Repr

/-- apisopenstack.CloudProfileConfig (fields read by
getConfigChartValues).  `loadBalancerClasses` of the pools keeps the Go
slice contents. -/
structure CloudProfileConfig where
  keyStoneURL : String := ""
  dhcpDomain : Option String := none
  requestTimeout : Option String := none
  constraintsFloatingPools : List OSFloatingPool := []
deriving DecidableEq, Repr

/-- apisopenstack.ControlPlaneConfig.  `loadBalancerClasses` is an
`Option` to keep Go's nil-slice / non-nil-slice distinction, which the
defaulting check `cpConfig.LoadBalancerClasses == nil` observes. -/
structure ControlPlaneConfig where
  loadBalancerProvider : String := ""
  loadBalancerClasses : Option (List LoadBalancerClass) := none
  zone : String := ""
deriving DecidableEq, Repr

/-- apisopenstack.Subnet of the infrastructure status. -/
structure OSSubnet where
  purpose : String
  id : String
deriving DecidableEq, Repr

/-- apisopenstack.FloatingPoolStatus. -/
structure FloatingPoolStatus where
  id : String := ""
  name : String := ""
deriving DecidableEq, Repr

/-- apisopenstack.NetworkStatus. -/
structure OSNetworkStatus where
  floatingPool : FloatingPoolStatus := {}
  subnets : List OSSubnet := []
deriving DecidableEq, Repr

/-- apisopenstack.InfrastructureStatus. -/
structure InfrastructureStatus where
  networks : OSNetworkStatus := {}
deriving DecidableEq, Repr

/-- internal.Credentials. -/
structure Credentials where
  domainName : String := ""
  tenantName : String := ""
  username : String := ""
  password : String := ""
deriving DecidableEq, Repr

/-- extensionsv1alpha1.ControlPlane (meta used for error messages). -/
structure ControlPlane where
  name : String := ""
  ns : String := ""
deriving DecidableEq, Repr

/-- One value of the chart-values map (`map[string]interface{}`): a Go
`string`, a Go `*string` (possibly nil), or the list of floating-class
maps. -/
inductive ChartValue where
  | str : String → ChartValue
  | strPtr : Option String → ChartValue
  | classList : List (List (String × String)) → ChartValue
deriving DecidableEq, Repr

abbrev ChartValues := List (String × ChartValue)

/-- utils.IsEmptyString (not under src/): nil pointer or empty string. -/
def IsEmptyString (s : Option String) : Bool :=
  match s with
  | none => true
  | some v => v.length == 0

/-- utils.SetStringValue (not under src/): set the key only when the
`*string` value is neither nil nor empty — this is what makes absent
optional strings yield absent keys. -/
def SetStringValue (values : ChartValues) (key : String) (value : Option String) : ChartValues :=
  if IsEmptyString value then values else mapSet values key (.str (value.getD ""))

/-- utils.SetStringValue at the floating-class element type
(`map[string]interface{}` holding only strings). -/
def SetStringValueFC (m : List (String × String)) (key : String) (value : Option String) :
    List (String × String) :=
  if IsEmptyString value then m else mapSet m key (value.getD "")

/-- apisopenstack constants. -/
def PurposeNodes : String := "nodes"
def DefaultLoadBalancerClass : String := "default"
def PrivateLoadBalancerClass : String := "private"

/-- helper.FindSubnetByPurpose (not under src/): first subnet with the
given purpose, error if none. -/
def FindSubnetByPurpose (subnets : List OSSubnet) (purpose : String) : Except String OSSubnet :=
  match subnets.find? (fun s => s.purpose == purpose) with
  | some s => .ok s
  | none => .error ("cannot find subnet with purpose \"" ++ purpose ++ "\"")

/-- valuesprovider.go: convert legacy garden load-balancer classes. -/
def gardenV1beta1OpenStackLoadBalancerClassToOpenStackV1alpha1LoadBalancerClass
    (loadBalancerClasses : List GardenLoadBalancerClass) : List LoadBalancerClass :=
  loadBalancerClasses.map (fun c =>
    { name := c.name
      floatingSubnetID := c.floatingSubnetID
      floatingNetworkID := c.floatingNetworkID
      subnetID := c.subnetID })

/-- The load-balancer classes getConfigChartValues ends up ranging over:
the ControlPlane config's own classes when its slice is non-nil, else the
classes of the matching floating-pool constraint (legacy cloud profile by
the shoot's floating pool name, core cloud profile by the infrastructure
status's floating pool name); a nil slice ranges as empty. -/
def resolvedLoadBalancerClasses (cpConfig : ControlPlaneConfig)
    (infraStatus : InfrastructureStatus) (cloudProfileConfig : Option CloudProfileConfig)
    (cluster : Cluster) : List LoadBalancerClass :=
  match cpConfig.loadBalancerClasses with
  | some cs => cs
  | none =>
    match cluster.cloudProfile, cluster.shoot with
    | some p, some sh =>
      match p.openstack.constraintsFloatingPools.find?
          (fun pool => pool.name == sh.openstackFloatingPoolName) with
      | some pool =>
        gardenV1beta1OpenStackLoadBalancerClassToOpenStackV1alpha1LoadBalancerClass
          pool.loadBalancerClasses
      | none => []
    | _, _ =>
      match cluster.coreCloudProfile, cluster.coreShoot, cloudProfileConfig with
      | some _, some _, some cpc =>
        match cpc.constraintsFloatingPools.find?
            (fun pool => pool.name == infraStatus.networks.floatingPool.name) with
        | some pool => pool.loadBalancerClasses
        | none => []
      | _, _, _ => []

/-- valuesprovider.go lines 914–926: one emitted floating-class map. -/
def buildFloatingClass (infraStatus : InfrastructureStatus) (cl : LoadBalancerClass) :
    List (String × String) :=
  let floatingClass := [("name", cl.name)]
  let floatingClass :=
    if !IsEmptyString cl.floatingSubnetID && IsEmptyString cl.floatingNetworkID then
      mapSet floatingClass "floatingNetworkID" infraStatus.networks.floatingPool.id
    else
      SetStringValueFC floatingClass "floatingNetworkID" cl.floatingNetworkID
  let floatingClass := SetStringValueFC floatingClass "floatingSubnetID" cl.floatingSubnetID
  SetStringValueFC floatingClass "subnetID" cl.subnetID

/-- valuesprovider.getConfigChartValues (the config-chart values): find
the nodes subnet, resolve keystone / DHCP / request-timeout settings,
assemble the base map, apply the `default` and `private` well-known
load-balancer classes (each loop `break`s at its first name match), and
emit the floating-class list when non-empty. -/
def getConfigChartValues (cpConfig : ControlPlaneConfig) (infraStatus : InfrastructureStatus)
    (cloudProfileConfig : Option CloudProfileConfig) (cp : ControlPlane) (c : Credentials)
    (cluster : Cluster) : Except String ChartValues :=
  match FindSubnetByPurpose infraStatus.networks.subnets PurposeNodes with
  | .error msg =>
    .error ("could not determine subnet from infrastructureProviderStatus of controlplane '" ++
      cp.ns ++ "/" ++ cp.name ++ "': " ++ msg)
  | .ok subnet =>
    let ks : String × Option String × Option String :=
      match cluster.cloudProfile with
      | some p => (p.openstack.keyStoneURL, p.openstack.dhcpDomain, p.openstack.requestTimeout)
      | none =>
        match cluster.coreCloudProfile, cloudProfileConfig with
        | some _, some cpc => (cpc.keyStoneURL, cpc.dhcpDomain, cpc.requestTimeout)
        | _, _ => ("", none, none)
    let values : ChartValues :=
      [("kubernetesVersion", .str (GetKubernetesVersion cluster)),
       ("domainName", .str c.domainName),
       ("tenantName", .str c.tenantName),
       ("username", .str c.username),
       ("password", .str c.password),
       ("lbProvider", .str cpConfig.loadBalancerProvider),
       ("floatingNetworkID", .str infraStatus.networks.floatingPool.id),
       ("subnetID", .str subnet.id),
       ("authUrl", .str ks.1),
       ("dhcpDomain", .strPtr ks.2.1),
       ("requestTimeout", .strPtr ks.2.2)]
    let classes := resolvedLoadBalancerClasses cpConfig infraStatus cloudProfileConfig cluster
    let values :=
      match classes.find? (fun cl => cl.name == DefaultLoadBalancerClass) with
      | some cl =>
        SetStringValue
          (SetStringValue (SetStringValue values "floatingNetworkID" cl.floatingNetworkID)
            "floatingSubnetID" cl.floatingSubnetID)
          "subnetID" cl.subnetID
      | none => values
    let values :=
      match classes.find? (fun cl => cl.name == PrivateLoadBalancerClass) with
      | some cl => SetStringValue values "subnetID" cl.subnetID
      | none => values
    let floatingClasses := classes.map (buildFloatingClass infraStatus)
    let values :=
      if floatingClasses.isEmpty then values
      else mapSet values "floatingClasses" (.classList floatingClasses)
    .ok values

/-! ## Theorems for the frozen claims -/

/-- Claim C5: `UpsertContainer` (EnsureContainerWithName) on a pod spec
with no container of the given name appends it; on a pod spec already
containing exactly one container of that name it replaces it in place,
with all other containers and their order preserved, so the result has
exactly one container of that name carrying the new fields; and no
element with a different name is ever removed. -/
theorem upsert_container_merge_correct (cs xs ys : List Container) (c old : Container) :
    (ContainerWithName cs c.name = none → EnsureContainerWithName cs c = cs ++ [c]) ∧
    ((∀ x ∈ xs, x.name ≠ c.name) → old.name = c.name →
      EnsureContainerWithName (xs ++ old :: ys) c = xs ++ c :: ys) ∧
    ((∀ x ∈ xs, x.name ≠ c.name) → (∀ y ∈ ys, y.name ≠ c.name) → old.name = c.name →
      (EnsureContainerWithName (xs ++ old :: ys) c).countP (fun x => x.name == c.name) = 1) ∧
    (∀ x ∈ cs, x.name ≠ c.name → x ∈ EnsureContainerWithName cs c) := by
  have happend : ∀ l : List Container, ContainerWithName l c.name = none →
      EnsureContainerWithName l c = l ++ [c] := by
    intro l
    induction l with
    | nil => intro _; rfl
    | cons x xs ih =>
      intro h
      simp only [ContainerWithName, List.find?] at h
      rcases hx : (x.name == c.name) with _ | _
      · rw [hx] at h
        simp only [EnsureContainerWithName, hx, Bool.false_eq_true, if_false, List.cons_append,
          List.cons.injEq, true_and]
        exact ih h
      · rw [hx] at h; simp at h
  have hreplace : ∀ l : List Container, (∀ x ∈ l, x.name ≠ c.name) → old.name = c.name →
      EnsureContainerWithName (l ++ old :: ys) c = l ++ c :: ys := by
    intro l hl hold
    induction l with
    | nil =>
      simp only [List.nil_append, EnsureContainerWithName, hold, beq_self_eq_true, if_true]
    | cons x xs ih =>
      have hx : (x.name == c.name) = false := by
        simpa using hl x (List.mem_cons_self x xs)
      simp only [List.cons_append, EnsureContainerWithName, hx, Bool.false_eq_true, if_false,
        List.cons.injEq, true_and]
      exact ih (fun y hy => hl y (List.mem_cons_of_mem x hy))
  refine ⟨happend cs, fun hxs hold => hreplace xs hxs hold, ?_, ?_⟩
  · intro hxs hys hold
    have h1 : ∀ l : List Container, (∀ x ∈ l, x.name ≠ c.name) →
        l.countP (fun x => x.name == c.name) = 0 := by
      intro l hl
      rw [List.countP_eq_zero]
      intro x hx
      simpa using hl x hx
    rw [hreplace xs hxs hold, List.countP_append, List.countP_cons, h1 xs hxs, h1 ys hys]
    simp
  · have hmem : ∀ l : List Container, ∀ x ∈ l, x.name ≠ c.name →
        x ∈ EnsureContainerWithName l c := by
      intro l
      induction l with
      | nil => intro x hx; simp at hx
      | cons y ys' ih =>
        intro x hx hxname
        by_cases hy : (y.name == c.name) = true
        · simp only [EnsureContainerWithName, hy, if_true]
          rcases List.mem_cons.mp hx with hxy | hxmem
          · subst hxy
            exact absurd (by simpa using hy) hxname
          · exact List.mem_cons_of_mem c hxmem
        · simp only [EnsureContainerWithName]
          rw [if_neg hy]
          rcases List.mem_cons.mp hx with hxy | hxmem
          · subst hxy
            exact List.mem_cons_self _ _
          · exact List.mem_cons_of_mem y (ih x hxmem hxname)
    exact hmem cs

/-- Witness for C5 at concrete pod specs: appending when absent (a spec
holding only a kube-apiserver container), replacing in place when a
backup-restore container with different fields is present, yielding
exactly one backup-restore container with the others preserved. -/
theorem upsert_container_merge_correct_witness :
    EnsureContainerWithName [{ name := "kube-apiserver" }] { name := "backup-restore", image := "new" } =
      [{ name := "kube-apiserver" }, { name := "backup-restore", image := "new" }] ∧
    EnsureContainerWithName
        [{ name := "kube-apiserver" }, { name := "backup-restore", image := "old" },
         { name := "etcd" }]
        { name := "backup-restore", image := "new" } =
      [{ name := "kube-apiserver" }, { name := "backup-restore", image := "new" },
       { name := "etcd" }] ∧
    (EnsureContainerWithName
        [{ name := "kube-apiserver" }, { name := "backup-restore", image := "old" },
         { name := "etcd" }]
        { name := "backup-restore", image := "new" }).countP
        (fun x => x.name == ({ name := "backup-restore", image := "new" } : Container).name) = 1 ∧
    ({ name := "kube-apiserver" } : Container) ∈
      EnsureContainerWithName
        [{ name := "kube-apiserver" }, { name := "backup-restore", image := "old" },
         { name := "etcd" }]
        { name := "backup-restore", image := "new" } := by
  refine ⟨?_, ?_, ?_, ?_⟩
  · exact (upsert_container_merge_correct [{ name := "kube-apiserver" }] [] []
      { name := "backup-restore", image := "new" } { name := "backup-restore", image := "old" }).1
      (by decide)
  · exact (upsert_container_merge_correct [] [{ name := "kube-apiserver" }] [{ name := "etcd" }]
      { name := "backup-restore", image := "new" } { name := "backup-restore", image := "old" }).2.1
      (by decide) (by decide)
  · exact (upsert_container_merge_correct [] [{ name := "kube-apiserver" }] [{ name := "etcd" }]
      { name := "backup-restore", image := "new" } { name := "backup-restore", image := "old" }).2.2.1
      (by decide) (by decide) (by decide)
  · exact (upsert_container_merge_correct
      [{ name := "kube-apiserver" }, { name := "backup-restore", image := "old" },
       { name := "etcd" }] [] []
      { name := "backup-restore", image := "new" } { name := "backup-restore", image := "old" }).2.2.2
      { name := "kube-apiserver" } (by decide) (by decide)

/-- Claim C2: a Service not named kube-apiserver, a Deployment not named
kube-apiserver / kube-controller-manager / kube-scheduler and a
StatefulSet not named etcd-main / etcd-events all pass through the
mutation dispatcher unchanged with no error. -/
theorem mutate_pass_through (e : GenericEnsurer) (getCluster : String → Except String Cluster)
    (svc : Service) (dep : Deployment) (ss : StatefulSet)
    (hs : svc.name ≠ DeploymentNameKubeAPIServer)
    (hd1 : dep.name ≠ DeploymentNameKubeAPIServer)
    (hd2 : dep.name ≠ DeploymentNameKubeControllerManager)
    (hd3 : dep.name ≠ DeploymentNameKubeScheduler)
    (hss1 : ss.name ≠ StatefulSetNameETCDMain)
    (hss2 : ss.name ≠ StatefulSetNameETCDEvents) :
    Mutate e getCluster (.service svc) = .ok (.service svc) ∧
    Mutate e getCluster (.deployment dep) = .ok (.deployment dep) ∧
    Mutate e getCluster (.statefulSet ss) = .ok (.statefulSet ss) := by
  refine ⟨?_, ?_, ?_⟩ <;>
    simp [Mutate, beq_eq_false_iff_ne, hs, hd1, hd2, hd3, hss1, hss2]

/-- Witness for C2 at concrete objects named "test". -/
theorem mutate_pass_through_witness :
    Mutate
      { ensureKubeAPIServerService := fun s => .ok s
        ensureKubeAPIServerDeployment := fun d => .ok d
        ensureKubeControllerManagerDeployment := fun d => .ok d
        ensureKubeSchedulerDeployment := fun d => .ok d
        ensureETCDStatefulSet := fun s _ => .ok s
        mutateOperatingSystemConfig := fun o => .ok o }
      (fun _ => .ok {}) (.service { name := "test" }) = .ok (.service { name := "test" }) ∧
    Mutate
      { ensureKubeAPIServerService := fun s => .ok s
        ensureKubeAPIServerDeployment := fun d => .ok d
        ensureKubeControllerManagerDeployment := fun d => .ok d
        ensureKubeSchedulerDeployment := fun d => .ok d
        ensureETCDStatefulSet := fun s _ => .ok s
        mutateOperatingSystemConfig := fun o => .ok o }
      (fun _ => .ok {}) (.deployment { name := "test" }) = .ok (.deployment { name := "test" }) ∧
    Mutate
      { ensureKubeAPIServerService := fun s => .ok s
        ensureKubeAPIServerDeployment := fun d => .ok d
        ensureKubeControllerManagerDeployment := fun d => .ok d
        ensureKubeSchedulerDeployment := fun d => .ok d
        ensureETCDStatefulSet := fun s _ => .ok s
        mutateOperatingSystemConfig := fun o => .ok o }
      (fun _ => .ok {}) (.statefulSet { name := "test" }) = .ok (.statefulSet { name := "test" }) :=
  mutate_pass_through _ _ { name := "test" } { name := "test" } { name := "test" }
    (by decide) (by decide) (by decide) (by decide) (by decide) (by decide)

/-- Claim C6: the checksum computation is a pure function of the secret's
data bytes; on the fixed payload data `foo ↦ "bar"` (bytes 98 97 114) it
yields exactly the pinned hex digest, and writing the annotations for the
backup secret with that payload stores exactly that digest under
`checksum/secret-etcd-backup`. -/
theorem checksum_fixed_digest :
    ComputeChecksum [("foo", [98, 97, 114])] =
      "8bafb35ff1ac60275d62e1cbd495aceb511fb354f74a20f7d06ecb48b3a68432" ∧
    EnsureSecretChecksumAnnotations
      (fun _ _ => some { name := awsBackupSecretName, ns := "test", data := [("foo", [98, 97, 114])] })
      {} "test" awsBackupSecretName =
      .ok { annotations :=
        [("checksum/secret-etcd-backup",
          "8bafb35ff1ac60275d62e1cbd495aceb511fb354f74a20f7d06ecb48b3a68432")] } := by
  constructor
  · decide
  · simp only [EnsureSecretChecksumAnnotations]
    congr 1

/-- DetermineBackupSchedule never fails in this model: it either keeps
the existing schedule or computes the default. -/
theorem determineBackupSchedule_ok (existing : Option Container) (cluster : Cluster) :
    ∃ s, DetermineBackupSchedule existing cluster = .ok s := by
  cases existing with
  | none => exact ⟨_, rfl⟩
  | some c =>
    cases h : backupScheduleOf c with
    | none => exact ⟨defaultBackupSchedule cluster, by simp [DetermineBackupSchedule, h]⟩
    | some s => exact ⟨s, by simp [DetermineBackupSchedule, h]⟩

/-- Characterization of `ensureBackupRestoreContainer` when the image
lookup succeeds: the result is a `GetBackupRestoreContainer` whose
provider / prefix / env / volume-claim-template arguments are a function
of the stateful-set name and backup configuration, for some schedule. -/
theorem ensureBackupRestoreContainer_eq (e : Ensurer) (existing : Option Container)
    (name : String) (cluster : Cluster) (img : ImageSource)
    (himg : FindImage e.imageVector awsETCDBackupRestoreImageName
      (GetKubernetesVersion cluster) = .ok img) :
    ∃ schedule, DetermineBackupSchedule existing cluster = .ok schedule ∧
      ensureBackupRestoreContainer e existing name cluster =
        .ok (GetBackupRestoreContainer name
          (if name == StatefulSetNameETCDMain then EtcdMainVolumeClaimTemplateName else name)
          (match e.etcdBackup with
           | some b => match b.schedule with | some s => s | none => schedule
           | none => schedule)
          (if name == StatefulSetNameETCDMain && !IsSeedBackupNil cluster then
            awsStorageProviderName else "")
          (if name == StatefulSetNameETCDMain && !IsSeedBackupNil cluster then
            GenerateBackupEntryName (GetTechnicalID cluster) (GetUID cluster) else "")
          (imageString img) []
          (if name == StatefulSetNameETCDMain && !IsSeedBackupNil cluster then
            awsBackupEnv else []) []) := by
  obtain ⟨s0, hs0⟩ := determineBackupSchedule_ok existing cluster
  refine ⟨s0, hs0, ?_⟩
  simp only [ensureBackupRestoreContainer, himg]
  rcases hb : e.etcdBackup with _ | b
  · simp only [hs0]
    rcases hm : (name == StatefulSetNameETCDMain) with _ | _ <;>
      rcases hn : IsSeedBackupNil cluster with _ | _ <;>
        simp [hm, hn]
  · rcases hsched : b.schedule with _ | s
    · simp only [hsched, hs0]
      rcases hm : (name == StatefulSetNameETCDMain) with _ | _ <;>
        rcases hn : IsSeedBackupNil cluster with _ | _ <;>
          simp [hm, hn]
    · simp only [hsched]
      rcases hm : (name == StatefulSetNameETCDMain) with _ | _ <;>
        rcases hn : IsSeedBackupNil cluster with _ | _ <;>
          simp [hm, hn]

/-- Claim C7: an explicit non-nil schedule override in the ETCDBackup
configuration always wins; with no override the schedule is the one
computed by `DetermineBackupSchedule`, which is a function of the
existing container state and the cluster only. -/
theorem backup_schedule_precedence (e : Ensurer) (existing : Option Container)
    (name : String) (cluster : Cluster) (img : ImageSource)
    (himg : FindImage e.imageVector awsETCDBackupRestoreImageName
      (GetKubernetesVersion cluster) = .ok img) :
    (∀ b s, e.etcdBackup = some b → b.schedule = some s →
      ∃ c, ensureBackupRestoreContainer e existing name cluster = .ok c ∧
        backupScheduleOf c = some s) ∧
    ((e.etcdBackup = none ∨ ∃ b, e.etcdBackup = some b ∧ b.schedule = none) →
      ∀ sched, DetermineBackupSchedule existing cluster = .ok sched →
        ∃ c, ensureBackupRestoreContainer e existing name cluster = .ok c ∧
          backupScheduleOf c = some sched) := by
  obtain ⟨s0, hs0, heq⟩ := ensureBackupRestoreContainer_eq e existing name cluster img himg
  constructor
  · intro b s hb hsched
    simp only [hb, hsched] at heq
    exact ⟨_, heq, backupScheduleOf_GBRC _ _ _ _ _ _ _ _ _⟩
  · intro hover sched hsched
    rw [hs0] at hsched
    injection hsched with h
    subst h
    rcases hover with hnone | ⟨b, hb, hbs⟩
    · simp only [hnone] at heq
      exact ⟨_, heq, backupScheduleOf_GBRC _ _ _ _ _ _ _ _ _⟩
    · simp only [hb, hbs] at heq
      exact ⟨_, heq, backupScheduleOf_GBRC _ _ _ _ _ _ _ _ _⟩

deriving instance DecidableEq for Except

/-- Witness ensurer: AWS backup ensurer with an explicit schedule
override. -/
def ensurerWithOverride : Ensurer :=
  { etcdBackup := some { schedule := some "0 */24 * * *" }
    imageVector := [{ name := "etcd-backup-restore", repository := "test-repository", tag := some "test-tag" }]
    getSecret := fun ns n =>
      if ns == "test" && n == "etcd-backup" then
        some { name := "etcd-backup", ns := "test", data := [("foo", [98, 97, 114])] }
      else none }

/-- Witness ensurer: AWS backup ensurer without a schedule override. -/
def ensurerNoOverride : Ensurer :=
  { etcdBackup := none
    imageVector := [{ name := "etcd-backup-restore", repository := "test-repository", tag := some "test-tag" }]
    getSecret := fun ns n =>
      if ns == "test" && n == "etcd-backup" then
        some { name := "etcd-backup", ns := "test", data := [("foo", [98, 97, 114])] }
      else none }

/-- Witness cluster with a configured Seed backup. -/
def clusterWithBackup : Cluster :=
  { coreSeed := some { backup := some {} }
    coreShoot := some { kubernetesVersion := "1.13.4", technicalID := "shoot--test--sample", uid := "test-uid" } }

/-- Witness cluster without a Seed backup. -/
def clusterNoBackup : Cluster :=
  { coreSeed := some { backup := none }
    coreShoot := some { kubernetesVersion := "1.13.4", technicalID := "shoot--test--sample", uid := "test-uid" } }

/-- Witness image as resolved from the witness image vector. -/
def witnessImage : ImageSource :=
  { name := "etcd-backup-restore", repository := "test-repository", tag := some "test-tag" }

/-- Witness for C7: with the override `0 */24 * * *` the built container
carries that schedule; without an override it carries the determined
default `0 23 * * *`. -/
theorem backup_schedule_precedence_witness :
    (∃ c, ensureBackupRestoreContainer ensurerWithOverride none "etcd-main" clusterWithBackup =
        .ok c ∧ backupScheduleOf c = some "0 */24 * * *") ∧
    (∃ c, ensureBackupRestoreContainer ensurerNoOverride none "etcd-main" clusterWithBackup =
        .ok c ∧ backupScheduleOf c = some "0 23 * * *") := by
  constructor
  · exact (backup_schedule_precedence ensurerWithOverride none "etcd-main" clusterWithBackup
      witnessImage (by decide)).1 _ _ rfl rfl
  · exact (backup_schedule_precedence ensurerNoOverride none "etcd-main" clusterWithBackup
      witnessImage (by decide)).2 (Or.inl rfl) "0 23 * * *" (by decide)

/-- Claim C4: for a StatefulSet named etcd-main, a nil Seed backup spec
yields a backup-restore sidecar with empty provider / prefix / env and
the pod-template annotations untouched; a non-nil backup spec yields the
populated provider / prefix / env and a checksum annotation keyed to the
backup secret. -/
theorem etcd_main_conditional_backup (e : Ensurer) (ss : StatefulSet) (cluster : Cluster)
    (img : ImageSource)
    (hname : ss.name = StatefulSetNameETCDMain)
    (himg : FindImage e.imageVector awsETCDBackupRestoreImageName
      (GetKubernetesVersion cluster) = .ok img) :
    (IsSeedBackupNil cluster = true →
      ∃ ss1, EnsureETCDStatefulSet e ss cluster = .ok ss1 ∧
        ∃ c, ContainerWithName ss1.spec.template.spec.containers BackupRestoreContainerName =
            some c ∧
          storageProviderOf c = some "" ∧ storePrefOf c = some "" ∧ c.env = [] ∧
          ss1.spec.template.annotations = ss.spec.template.annotations) ∧
    (IsSeedBackupNil cluster = false →
      ∀ sec, e.getSecret ss.ns awsBackupSecretName = some sec →
        ∃ ss1, EnsureETCDStatefulSet e ss cluster = .ok ss1 ∧
          ∃ c, ContainerWithName ss1.spec.template.spec.containers BackupRestoreContainerName =
              some c ∧
            storageProviderOf c = some awsStorageProviderName ∧
            storePrefOf c =
              some (GenerateBackupEntryName (GetTechnicalID cluster) (GetUID cluster)) ∧
            c.env = awsBackupEnv ∧
            mapLookup ss1.spec.template.annotations ("checksum/secret-" ++ awsBackupSecretName) =
              some (ComputeChecksum sec.data)) := by
  obtain ⟨s0, hs0, heq⟩ := ensureBackupRestoreContainer_eq e
    (ContainerWithName ss.spec.template.spec.containers BackupRestoreContainerName)
    ss.name cluster img himg
  have hnb : (ss.name == StatefulSetNameETCDMain) = true := by
    rw [hname]; exact beq_self_eq_true _
  constructor
  · intro hnil
    simp only [hnb, if_true, hnil, Bool.not_true, Bool.and_false, Bool.false_eq_true,
      if_false] at heq
    have hens : EnsureETCDStatefulSet e ss cluster =
        .ok { ss with spec := { ss.spec with template :=
          { ss.spec.template with spec := { ss.spec.template.spec with
            containers := EnsureContainerWithName ss.spec.template.spec.containers
              (GetBackupRestoreContainer ss.name EtcdMainVolumeClaimTemplateName
                (match e.etcdBackup with
                 | some b => match b.schedule with | some s => s | none => s0
                 | none => s0)
                "" "" (imageString img) [] [] []) } } } } := by
      simp only [EnsureETCDStatefulSet, ensureContainers, heq, ensureChecksumAnnotations,
        hnil, Bool.not_true, Bool.and_false, Bool.false_eq_true, if_false]
    refine ⟨_, hens, _, containerWithName_ensure _ _, ?_, ?_, rfl, rfl⟩
    · exact storageProviderOf_GBRC _ _ _ _ _ _ _ _ _
    · exact storePrefOf_GBRC _ _ _ _ _ _ _ _ _
  · intro hnil sec hsec
    simp only [hnb, if_true, hnil, Bool.not_false, Bool.and_true, if_true] at heq
    have hens : EnsureETCDStatefulSet e ss cluster =
        .ok { ss with spec := { ss.spec with template :=
          { ss.spec.template with
            annotations := mapSet ss.spec.template.annotations
              ("checksum/secret-" ++ awsBackupSecretName) (ComputeChecksum sec.data)
            spec := { ss.spec.template.spec with
              containers := EnsureContainerWithName ss.spec.template.spec.containers
                (GetBackupRestoreContainer ss.name EtcdMainVolumeClaimTemplateName
                  (match e.etcdBackup with
                   | some b => match b.schedule with | some s => s | none => s0
                   | none => s0)
                  awsStorageProviderName
                  (GenerateBackupEntryName (GetTechnicalID cluster) (GetUID cluster))
                  (imageString img) [] awsBackupEnv []) } } } } := by
      simp only [EnsureETCDStatefulSet, ensureContainers, heq, ensureChecksumAnnotations,
        hnil, Bool.not_false, hnb, Bool.and_true, if_true,
        EnsureSecretChecksumAnnotations, hsec]
    refine ⟨_, hens, _, containerWithName_ensure _ _, ?_, ?_, rfl, ?_⟩
    · exact storageProviderOf_GBRC _ _ _ _ _ _ _ _ _
    · exact storePrefOf_GBRC _ _ _ _ _ _ _ _ _
    · exact mapLookup_mapSet_self _ _ _

/-- Witness for C4: the two branches at concrete inputs — the etcd-main
stateful set with the no-backup cluster and with the backup-configured
cluster. -/
theorem etcd_main_conditional_backup_witness :
    (∃ ss1, EnsureETCDStatefulSet ensurerWithOverride
        { name := "etcd-main", ns := "test" } clusterNoBackup = .ok ss1 ∧
      ∃ c, ContainerWithName ss1.spec.template.spec.containers BackupRestoreContainerName =
          some c ∧
        storageProviderOf c = some "" ∧ storePrefOf c = some "" ∧ c.env = [] ∧
        ss1.spec.template.annotations =
          ({ name := "etcd-main", ns := "test" } : StatefulSet).spec.template.annotations) ∧
    (∃ ss1, EnsureETCDStatefulSet ensurerWithOverride
        { name := "etcd-main", ns := "test" } clusterWithBackup = .ok ss1 ∧
      ∃ c, ContainerWithName ss1.spec.template.spec.containers BackupRestoreContainerName =
          some c ∧
        storageProviderOf c = some awsStorageProviderName ∧
        storePrefOf c = some (GenerateBackupEntryName (GetTechnicalID clusterWithBackup)
          (GetUID clusterWithBackup)) ∧
        c.env = awsBackupEnv ∧
        mapLookup ss1.spec.template.annotations ("checksum/secret-" ++ awsBackupSecretName) =
          some (ComputeChecksum [("foo", [98, 97, 114])])) := by
  constructor
  · exact (etcd_main_conditional_backup ensurerWithOverride { name := "etcd-main", ns := "test" }
      clusterNoBackup witnessImage rfl (by decide)).1 (by decide)
  · exact (etcd_main_conditional_backup ensurerWithOverride { name := "etcd-main", ns := "test" }
      clusterWithBackup witnessImage rfl (by decide)).2 (by decide)
      { name := "etcd-backup", ns := "test", data := [("foo", [98, 97, 114])] } (by decide)

/-- Claim C8: a StatefulSet named etcd-events always gets a
backup-restore sidecar with empty provider / prefix / env — whatever the
backup configuration — with no checksum annotation added, no volume
added, and the volume-claim-template name equal to the StatefulSet name;
the etcd-main container instead always uses the dedicated
`EtcdMainVolumeClaimTemplateName` constant. -/
theorem etcd_events_always_degraded (e : Ensurer) (ss : StatefulSet) (cluster : Cluster)
    (img : ImageSource)
    (hname : ss.name = StatefulSetNameETCDEvents)
    (himg : FindImage e.imageVector awsETCDBackupRestoreImageName
      (GetKubernetesVersion cluster) = .ok img) :
    (∃ ss1, EnsureETCDStatefulSet e ss cluster = .ok ss1 ∧
      ∃ c, ContainerWithName ss1.spec.template.spec.containers BackupRestoreContainerName =
          some c ∧
        storageProviderOf c = some "" ∧ storePrefOf c = some "" ∧ c.env = [] ∧
        volumeClaimTemplateNameOf c = some StatefulSetNameETCDEvents ∧
        ss1.spec.template.annotations = ss.spec.template.annotations ∧
        ss1.spec.template.spec.volumes = ss.spec.template.spec.volumes) ∧
    (∀ existing c', ensureBackupRestoreContainer e existing StatefulSetNameETCDMain cluster =
        .ok c' →
      volumeClaimTemplateNameOf c' = some EtcdMainVolumeClaimTemplateName) := by
  obtain ⟨s0, hs0, heq⟩ := ensureBackupRestoreContainer_eq e
    (ContainerWithName ss.spec.template.spec.containers BackupRestoreContainerName)
    ss.name cluster img himg
  have hnb : (ss.name == StatefulSetNameETCDMain) = false := by
    rw [hname]; decide
  constructor
  · simp only [hnb, Bool.false_eq_true, if_false, Bool.false_and] at heq
    have hens : EnsureETCDStatefulSet e ss cluster =
        .ok { ss with spec := { ss.spec with template :=
          { ss.spec.template with spec := { ss.spec.template.spec with
            containers := EnsureContainerWithName ss.spec.template.spec.containers
              (GetBackupRestoreContainer ss.name ss.name
                (match e.etcdBackup with
                 | some b => match b.schedule with | some s => s | none => s0
                 | none => s0)
                "" "" (imageString img) [] [] []) } } } } := by
      simp only [EnsureETCDStatefulSet, ensureContainers, heq, ensureChecksumAnnotations,
        hnb, Bool.false_eq_true, Bool.false_and, if_false]
    refine ⟨_, hens, _, containerWithName_ensure _ _, ?_, ?_, rfl, ?_, rfl, rfl⟩
    · exact storageProviderOf_GBRC _ _ _ _ _ _ _ _ _
    · exact storePrefOf_GBRC _ _ _ _ _ _ _ _ _
    · simp only [volumeClaimTemplateNameOf, GetBackupRestoreContainer, List.head?, Option.map,
        hname]
  · intro existing c' hc'
    obtain ⟨s1, _, heq'⟩ := ensureBackupRestoreContainer_eq e existing StatefulSetNameETCDMain
      cluster img himg
    rw [heq'] at hc'
    injection hc' with hc'
    subst hc'
    simp only [volumeClaimTemplateNameOf, GetBackupRestoreContainer, List.head?, Option.map,
      beq_self_eq_true, if_true]

/-- Witness for C8 at the concrete etcd-events StatefulSet and the
backup-configured cluster (showing the degraded sidecar regardless of
backup being configured), plus the etcd-main volume-claim-template
contrast. -/
theorem etcd_events_always_degraded_witness :
    (∃ ss1, EnsureETCDStatefulSet ensurerWithOverride
        { name := "etcd-events", ns := "test" } clusterWithBackup = .ok ss1 ∧
      ∃ c, ContainerWithName ss1.spec.template.spec.containers BackupRestoreContainerName =
          some c ∧
        storageProviderOf c = some "" ∧ storePrefOf c = some "" ∧ c.env = [] ∧
        volumeClaimTemplateNameOf c = some StatefulSetNameETCDEvents ∧
        ss1.spec.template.annotations =
          ({ name := "etcd-events", ns := "test" } : StatefulSet).spec.template.annotations ∧
        ss1.spec.template.spec.volumes =
          ({ name := "etcd-events", ns := "test" } : StatefulSet).spec.template.spec.volumes) ∧
    (∀ existing c', ensureBackupRestoreContainer ensurerWithOverride existing
        StatefulSetNameETCDMain clusterWithBackup = .ok c' →
      volumeClaimTemplateNameOf c' = some EtcdMainVolumeClaimTemplateName) :=
  etcd_events_always_degraded ensurerWithOverride { name := "etcd-events", ns := "test" }
    clusterWithBackup witnessImage rfl (by decide)

/-- The schedule of a freshly built backup-restore container is read back
verbatim by DetermineBackupSchedule. -/
theorem determineBackupSchedule_GBRC (cluster : Cluster) (n v s p q i : String)
    (a : List String) (env : List EnvVar) (vm : List VolumeMount) :
    DetermineBackupSchedule (some (GetBackupRestoreContainer n v s p q i a env vm)) cluster =
      .ok s := by
  simp [DetermineBackupSchedule, backupScheduleOf_GBRC]

/-- A successfully built backup-restore container is named
`backup-restore`. -/
theorem ensureBackupRestoreContainer_name (e : Ensurer) (existing : Option Container)
    (name : String) (cluster : Cluster) (c : Container)
    (h : ensureBackupRestoreContainer e existing name cluster = .ok c) :
    c.name = BackupRestoreContainerName := by
  cases himg : FindImage e.imageVector awsETCDBackupRestoreImageName
      (GetKubernetesVersion cluster) with
  | error msg => simp [ensureBackupRestoreContainer, himg] at h
  | ok img =>
    obtain ⟨s0, _, heq⟩ := ensureBackupRestoreContainer_eq e existing name cluster img himg
    rw [heq] at h
    injection h with h
    rw [← h]
    rfl

/-- Rebuilding against the container just built yields the same
container: the provider / prefix / env / claim-template arguments depend
only on (name, cluster), and the schedule is either the unchanged
override or read back from the container's own command line. -/
theorem ensureBackupRestoreContainer_stable (e : Ensurer) (existing : Option Container)
    (name : String) (cluster : Cluster) (c : Container)
    (h : ensureBackupRestoreContainer e existing name cluster = .ok c) :
    ensureBackupRestoreContainer e (some c) name cluster = .ok c := by
  cases himg : FindImage e.imageVector awsETCDBackupRestoreImageName
      (GetKubernetesVersion cluster) with
  | error msg => simp [ensureBackupRestoreContainer, himg] at h
  | ok img =>
    obtain ⟨s0, hs0, heq⟩ := ensureBackupRestoreContainer_eq e existing name cluster img himg
    rw [heq] at h
    injection h with h
    obtain ⟨s1, hs1, heq'⟩ := ensureBackupRestoreContainer_eq e (some c) name cluster img himg
    rw [← h, determineBackupSchedule_GBRC] at hs1
    injection hs1 with hs1
    rw [heq', ← h, ← hs1]
    rcases hE : e.etcdBackup with _ | b
    · simp [hE]
    · rcases hbs : b.schedule with _ | s
      · simp [hE, hbs]
      · simp [hE, hbs]

/-- Re-running the container-ensuring step on its own output is the
identity. -/
theorem ensureContainers_stable (e : Ensurer) (ps ps' : PodSpec) (name : String)
    (cluster : Cluster) (h : ensureContainers e ps name cluster = .ok ps') :
    ensureContainers e ps' name cluster = .ok ps' := by
  cases hbrc : ensureBackupRestoreContainer e
      (ContainerWithName ps.containers BackupRestoreContainerName) name cluster with
  | error msg => simp [ensureContainers, hbrc] at h
  | ok c =>
    simp only [ensureContainers, hbrc] at h
    injection h with h
    subst h
    have hcn := ensureBackupRestoreContainer_name _ _ _ _ _ hbrc
    have hfind : ContainerWithName (EnsureContainerWithName ps.containers c)
        BackupRestoreContainerName = some c := by
      rw [← hcn]
      exact containerWithName_ensure _ _
    have hstable := ensureBackupRestoreContainer_stable _ _ _ _ _ hbrc
    simp only [ensureContainers, hfind, hstable, ensureContainerWithName_idem]

/-- Re-running the checksum-annotations step on its own output is the
identity. -/
theorem ensureChecksumAnnotations_stable (e : Ensurer) (t t' : PodTemplateSpec)
    (ns name : String) (bc : Bool)
    (h : ensureChecksumAnnotations e t ns name bc = .ok t') :
    ensureChecksumAnnotations e t' ns name bc = .ok t' := by
  by_cases hb : (name == StatefulSetNameETCDMain && bc) = true
  · simp only [ensureChecksumAnnotations, if_pos hb, EnsureSecretChecksumAnnotations] at h ⊢
    cases hsec : e.getSecret ns awsBackupSecretName with
    | none => rw [hsec] at h; simp at h
    | some sec =>
      rw [hsec] at h
      injection h with h
      subst h
      simp [mapSet_mapSet_self]
  · simp only [ensureChecksumAnnotations, if_neg hb]

/-- The checksum-annotations step never changes the pod spec. -/
theorem ensureChecksumAnnotations_spec_eq (e : Ensurer) (t t' : PodTemplateSpec)
    (ns name : String) (bc : Bool)
    (h : ensureChecksumAnnotations e t ns name bc = .ok t') :
    t'.spec = t.spec := by
  by_cases hb : (name == StatefulSetNameETCDMain && bc) = true
  · simp only [ensureChecksumAnnotations, if_pos hb, EnsureSecretChecksumAnnotations] at h
    cases hsec : e.getSecret ns awsBackupSecretName with
    | none => rw [hsec] at h; simp at h
    | some sec =>
      rw [hsec] at h
      injection h with h
      subst h
      rfl
  · simp only [ensureChecksumAnnotations, if_neg hb] at h
    injection h with h
    subst h
    rfl

/-- Claim C1: applying EnsureETCDStatefulSet twice yields the same result
as applying it once — whenever one application succeeds, re-applying it
to the mutated StatefulSet returns that StatefulSet unchanged. -/
theorem ensure_etcd_statefulset_idempotent (e : Ensurer) (cluster : Cluster)
    (ss ss1 : StatefulSet)
    (h : EnsureETCDStatefulSet e ss cluster = .ok ss1) :
    EnsureETCDStatefulSet e ss1 cluster = .ok ss1 := by
  cases hec : ensureContainers e ss.spec.template.spec ss.name cluster with
  | error msg => simp [EnsureETCDStatefulSet, hec] at h
  | ok ps' =>
    cases hca : ensureChecksumAnnotations e { ss.spec.template with spec := ps' } ss.ns ss.name
        (!IsSeedBackupNil cluster) with
    | error msg => simp [EnsureETCDStatefulSet, hec, hca] at h
    | ok t' =>
      simp only [EnsureETCDStatefulSet, hec, hca] at h
      injection h with h
      subst h
      have hspec : t'.spec = ps' := ensureChecksumAnnotations_spec_eq _ _ _ _ _ _ hca
      have hec2 : ensureContainers e ps' ss.name cluster = .ok ps' :=
        ensureContainers_stable _ _ _ _ _ hec
      have hca2 : ensureChecksumAnnotations e t' ss.ns ss.name (!IsSeedBackupNil cluster) =
          .ok t' := ensureChecksumAnnotations_stable _ _ _ _ _ _ hca
      show ((match ensureContainers e t'.spec ss.name cluster with
        | Except.error msg => Except.error msg
        | Except.ok ps =>
          match ensureChecksumAnnotations e { t' with spec := ps } ss.ns ss.name
              (!IsSeedBackupNil cluster) with
          | Except.error msg => Except.error msg
          | Except.ok template =>
            Except.ok { ss with spec := { ss.spec with template := template } }) :
          Except String StatefulSet) =
        Except.ok { ss with spec := { ss.spec with template := t' } }
      rw [hspec]
      simp only [hec2]
      have ht' : ({ annotations := t'.annotations, spec := ps' } : PodTemplateSpec) = t' := by
        rw [← hspec]
      rw [ht']
      simp only [hca2]

/-- The etcd-main StatefulSet after one application of the witness
ensurer (with backup configured, so the container, annotations and
checksum are all populated). -/
def etcdMainApplied : StatefulSet :=
  match EnsureETCDStatefulSet ensurerWithOverride { name := "etcd-main", ns := "test" }
      clusterWithBackup with
  | .ok ss => ss
  | .error _ => { name := "etcd-main", ns := "test" }

/-- Witness for C1: re-applying the witness ensurer to the already
mutated etcd-main StatefulSet reproduces it exactly. -/
theorem ensure_etcd_statefulset_idempotent_witness :
    EnsureETCDStatefulSet ensurerWithOverride etcdMainApplied clusterWithBackup =
      .ok etcdMainApplied :=
  ensure_etcd_statefulset_idempotent ensurerWithOverride clusterWithBackup
    { name := "etcd-main", ns := "test" } etcdMainApplied (by decide)

/-! ## Lookup-preservation lemmas for the chart-values map -/

theorem mapLookup_SetStringValue_ne (m : ChartValues) (k k' : String) (v : Option String)
    (h : k' ≠ k) : mapLookup (SetStringValue m k v) k' = mapLookup m k' := by
  unfold SetStringValue
  split
  · rfl
  · exact mapLookup_mapSet_ne m k k' _ h

theorem mapLookup_SetStringValue_self (m : ChartValues) (k : String) (v : Option String)
    (h : IsEmptyString v = false) :
    mapLookup (SetStringValue m k v) k = some (.str (v.getD "")) := by
  unfold SetStringValue
  rw [h]
  simp only [Bool.false_eq_true, if_false]
  exact mapLookup_mapSet_self m k _

theorem mapLookup_SetStringValueFC_ne (m : List (String × String)) (k k' : String)
    (v : Option String) (h : k' ≠ k) :
    mapLookup (SetStringValueFC m k v) k' = mapLookup m k' := by
  unfold SetStringValueFC
  split
  · rfl
  · exact mapLookup_mapSet_ne m k k' _ h

theorem mapLookup_SetStringValueFC_self (m : List (String × String)) (k : String)
    (v : Option String) (h : IsEmptyString v = false) :
    mapLookup (SetStringValueFC m k v) k = some (v.getD "") := by
  unfold SetStringValueFC
  rw [h]
  simp only [Bool.false_eq_true, if_false]
  exact mapLookup_mapSet_self m k _

/-! ## C3: load-balancer class resolution -/

/-- ControlPlane config carrying two load-balancer classes both named
`default` with different floatingSubnetID values. -/
def lbTwoDefaults : ControlPlaneConfig :=
  { loadBalancerProvider := "haproxy"
    loadBalancerClasses := some
      [{ name := "default", floatingSubnetID := some "subnet-a" },
       { name := "default", floatingSubnetID := some "subnet-b" }] }

/-- Infrastructure status with one nodes subnet and a named floating
pool. -/
def infraStatusW : InfrastructureStatus :=
  { networks := { floatingPool := { id := "fip", name := "pool" }
                  subnets := [{ purpose := "nodes", id := "nodes-subnet" }] } }

/-- Counterexample to claim C3 as stated: with two `default` entries
carrying floatingSubnetID `subnet-a` then `subnet-b`, the emitted
`floatingSubnetID` is that of the FIRST entry, not the last — the Go
loop `break`s at its first name match. -/
theorem lb_class_last_match_counterexample :
    mapLookup ((getConfigChartValues lbTwoDefaults infraStatusW none {} {} {}).toOption.getD [])
        "floatingSubnetID" = some (.str "subnet-a") ∧
    mapLookup ((getConfigChartValues lbTwoDefaults infraStatusW none {} {} {}).toOption.getD [])
        "floatingSubnetID" ≠ some (.str "subnet-b") := by
  constructor
  · decide
  · decide

/-- Claim C3 (amended): when several load-balancer-class entries share
the well-known name `default`, the values-provider output reflects the
FIRST matching entry in input order (first-match-wins): whenever the
first `default` entry of the ControlPlane config's class list has a
non-empty floatingSubnetID, the output's `floatingSubnetID` is that
entry's value. -/
theorem lb_class_first_match_wins (cpConfig : ControlPlaneConfig)
    (infraStatus : InfrastructureStatus) (cpc : Option CloudProfileConfig) (cp : ControlPlane)
    (c : Credentials) (cluster : Cluster) (cs : List LoadBalancerClass)
    (cl : LoadBalancerClass) (vs : ChartValues)
    (hcs : cpConfig.loadBalancerClasses = some cs)
    (hfind : cs.find? (fun x => x.name == DefaultLoadBalancerClass) = some cl)
    (hsub : IsEmptyString cl.floatingSubnetID = false)
    (hok : getConfigChartValues cpConfig infraStatus cpc cp c cluster = .ok vs) :
    mapLookup vs "floatingSubnetID" = some (.str (cl.floatingSubnetID.getD "")) := by
  cases hsubnet : FindSubnetByPurpose infraStatus.networks.subnets PurposeNodes with
  | error msg => simp [getConfigChartValues, hsubnet] at hok
  | ok subnet =>
    have hres : resolvedLoadBalancerClasses cpConfig infraStatus cpc cluster = cs := by
      simp [resolvedLoadBalancerClasses, hcs]
    simp only [getConfigChartValues, hsubnet, hres, hfind] at hok
    injection hok with hok
    rw [← hok]
    by_cases hfc : (cs.map (buildFloatingClass infraStatus)).isEmpty = true
    · rw [if_pos hfc]
      cases hpriv : cs.find? (fun x => x.name == PrivateLoadBalancerClass) with
      | none =>
        rw [mapLookup_SetStringValue_ne _ _ _ _ (by decide),
          mapLookup_SetStringValue_self _ _ _ hsub]
      | some cl' =>
        rw [mapLookup_SetStringValue_ne _ _ _ _ (by decide),
          mapLookup_SetStringValue_ne _ _ _ _ (by decide),
          mapLookup_SetStringValue_self _ _ _ hsub]
    · rw [if_neg hfc, mapLookup_mapSet_ne _ _ _ _ (by decide)]
      cases hpriv : cs.find? (fun x => x.name == PrivateLoadBalancerClass) with
      | none =>
        rw [mapLookup_SetStringValue_ne _ _ _ _ (by decide),
          mapLookup_SetStringValue_self _ _ _ hsub]
      | some cl' =>
        rw [mapLookup_SetStringValue_ne _ _ _ _ (by decide),
          mapLookup_SetStringValue_ne _ _ _ _ (by decide),
          mapLookup_SetStringValue_self _ _ _ hsub]

/-- The chart values produced at the two-`default` counterexample input. -/
def lbValuesW : ChartValues :=
  (getConfigChartValues lbTwoDefaults infraStatusW none {} {} {}).toOption.getD []

/-- Witness for the amended C3 at the concrete two-`default` input: the
first entry's `subnet-a` wins. -/
theorem lb_class_first_match_wins_witness :
    mapLookup lbValuesW "floatingSubnetID" = some (.str "subnet-a") :=
  lb_class_first_match_wins lbTwoDefaults infraStatusW none {} {} {}
    [{ name := "default", floatingSubnetID := some "subnet-a" },
     { name := "default", floatingSubnetID := some "subnet-b" }]
    { name := "default", floatingSubnetID := some "subnet-a" } lbValuesW
    rfl (by decide) (by decide) (by decide)

/-! ## C9: optional DHCP-domain / request-timeout fields -/

/-- Cloud profile config with the optional DHCP-domain and
request-timeout fields absent. -/
def cloudProfileConfigNoOpt : CloudProfileConfig := { keyStoneURL := "http://keystone" }

/-- Cluster carrying only the core cloud profile and shoot. -/
def clusterCoreOnly : Cluster :=
  { coreCloudProfile := some {}, coreShoot := some { kubernetesVersion := "1.13.4" } }

/-- Counterexample to claim C9 as stated: with the DHCP-domain and
request-timeout fields absent, the returned values map still CARRIES the
`dhcpDomain` and `requestTimeout` keys — bound to Go nil pointers — so
the keys are not absent. -/
theorem dhcp_absent_key_counterexample :
    mapLookup ((getConfigChartValues {} infraStatusW (some cloudProfileConfigNoOpt) {} {}
        clusterCoreOnly).toOption.getD []) "dhcpDomain" = some (.strPtr none) ∧
    mapLookup ((getConfigChartValues {} infraStatusW (some cloudProfileConfigNoOpt) {} {}
        clusterCoreOnly).toOption.getD []) "requestTimeout" = some (.strPtr none) := by
  constructor
  · decide
  · decide

/-- Claim C9 (amended): absence of the optional DHCP-domain and
request-timeout fields yields map keys that are PRESENT but bound to nil
pointer values (null placeholders) — in particular not to empty
strings. -/
theorem dhcp_request_timeout_nil_values (cpConfig : ControlPlaneConfig)
    (infraStatus : InfrastructureStatus) (cpc0 : CloudProfileConfig) (cp : ControlPlane)
    (c : Credentials) (cluster : Cluster) (vs : ChartValues)
    (hlegacy : cluster.cloudProfile = none)
    (hdhcp : cpc0.dhcpDomain = none) (hrt : cpc0.requestTimeout = none)
    (hok : getConfigChartValues cpConfig infraStatus (some cpc0) cp c cluster = .ok vs) :
    mapLookup vs "dhcpDomain" = some (.strPtr none) ∧
    mapLookup vs "requestTimeout" = some (.strPtr none) := by
  cases hsubnet : FindSubnetByPurpose infraStatus.networks.subnets PurposeNodes with
  | error msg => simp [getConfigChartValues, hsubnet] at hok
  | ok subnet =>
    simp only [getConfigChartValues, hsubnet, hlegacy] at hok
    injection hok with hok
    have hbase : ∀ k, k = "dhcpDomain" ∨ k = "requestTimeout" →
        mapLookup vs k = some (ChartValue.strPtr none) := by
      intro k hk
      rw [← hok]
      have hne1 : k ≠ "subnetID" := by rcases hk with h | h <;> simp [h]
      have hne2 : k ≠ "floatingNetworkID" := by rcases hk with h | h <;> simp [h]
      have hne3 : k ≠ "floatingSubnetID" := by rcases hk with h | h <;> simp [h]
      have hne4 : k ≠ "floatingClasses" := by rcases hk with h | h <;> simp [h]
      by_cases hfc : ((resolvedLoadBalancerClasses cpConfig infraStatus (some cpc0)
          cluster).map (buildFloatingClass infraStatus)).isEmpty = true
      · rw [if_pos hfc]
        cases hpriv : (resolvedLoadBalancerClasses cpConfig infraStatus (some cpc0)
            cluster).find? (fun x => x.name == PrivateLoadBalancerClass) with
        | none =>
          cases hdef : (resolvedLoadBalancerClasses cpConfig infraStatus (some cpc0)
              cluster).find? (fun x => x.name == DefaultLoadBalancerClass) with
          | none =>
            cases hcore : cluster.coreCloudProfile with
            | none => rcases hk with h | h <;> (subst h; simp [mapLookup])
            | some p => rcases hk with h | h <;> (subst h; simp [mapLookup, hdhcp, hrt])
          | some cl =>
            rw [mapLookup_SetStringValue_ne _ _ _ _ hne1,
              mapLookup_SetStringValue_ne _ _ _ _ hne3,
              mapLookup_SetStringValue_ne _ _ _ _ hne2]
            cases hcore : cluster.coreCloudProfile with
            | none => rcases hk with h | h <;> (subst h; simp [mapLookup])
            | some p => rcases hk with h | h <;> (subst h; simp [mapLookup, hdhcp, hrt])
        | some cl' =>
          rw [mapLookup_SetStringValue_ne _ _ _ _ hne1]
          cases hdef : (resolvedLoadBalancerClasses cpConfig infraStatus (some cpc0)
              cluster).find? (fun x => x.name == DefaultLoadBalancerClass) with
          | none =>
            cases hcore : cluster.coreCloudProfile with
            | none => rcases hk with h | h <;> (subst h; simp [mapLookup])
            | some p => rcases hk with h | h <;> (subst h; simp [mapLookup, hdhcp, hrt])
          | some cl =>
            rw [mapLookup_SetStringValue_ne _ _ _ _ hne1,
              mapLookup_SetStringValue_ne _ _ _ _ hne3,
              mapLookup_SetStringValue_ne _ _ _ _ hne2]
            cases hcore : cluster.coreCloudProfile with
            | none => rcases hk with h | h <;> (subst h; simp [mapLookup])
            | some p => rcases hk with h | h <;> (subst h; simp [mapLookup, hdhcp, hrt])
      · rw [if_neg hfc, mapLookup_mapSet_ne _ _ _ _ hne4]
        cases hpriv : (resolvedLoadBalancerClasses cpConfig infraStatus (some cpc0)
            cluster).find? (fun x => x.name == PrivateLoadBalancerClass) with
        | none =>
          cases hdef : (resolvedLoadBalancerClasses cpConfig infraStatus (some cpc0)
              cluster).find? (fun x => x.name == DefaultLoadBalancerClass) with
          | none =>
            cases hcore : cluster.coreCloudProfile with
            | none => rcases hk with h | h <;> (subst h; simp [mapLookup])
            | some p => rcases hk with h | h <;> (subst h; simp [mapLookup, hdhcp, hrt])
          | some cl =>
            rw [mapLookup_SetStringValue_ne _ _ _ _ hne1,
              mapLookup_SetStringValue_ne _ _ _ _ hne3,
              mapLookup_SetStringValue_ne _ _ _ _ hne2]
            cases hcore : cluster.coreCloudProfile with
            | none => rcases hk with h | h <;> (subst h; simp [mapLookup])
            | some p => rcases hk with h | h <;> (subst h; simp [mapLookup, hdhcp, hrt])
        | some cl' =>
          rw [mapLookup_SetStringValue_ne _ _ _ _ hne1]
          cases hdef : (resolvedLoadBalancerClasses cpConfig infraStatus (some cpc0)
              cluster).find? (fun x => x.name == DefaultLoadBalancerClass) with
          | none =>
            cases hcore : cluster.coreCloudProfile with
            | none => rcases hk with h | h <;> (subst h; simp [mapLookup])
            | some p => rcases hk with h | h <;> (subst h; simp [mapLookup, hdhcp, hrt])
          | some cl =>
            rw [mapLookup_SetStringValue_ne _ _ _ _ hne1,
              mapLookup_SetStringValue_ne _ _ _ _ hne3,
              mapLookup_SetStringValue_ne _ _ _ _ hne2]
            cases hcore : cluster.coreCloudProfile with
            | none => rcases hk with h | h <;> (subst h; simp [mapLookup])
            | some p => rcases hk with h | h <;> (subst h; simp [mapLookup, hdhcp, hrt])
    exact ⟨hbase "dhcpDomain" (Or.inl rfl), hbase "requestTimeout" (Or.inr rfl)⟩

/-- The chart values produced at the C9 counterexample input. -/
def dhcpValuesW : ChartValues :=
  (getConfigChartValues {} infraStatusW (some cloudProfileConfigNoOpt) {} {}
    clusterCoreOnly).toOption.getD []

/-- Witness for the amended C9 at the concrete input with both optional
fields absent. -/
theorem dhcp_request_timeout_nil_values_witness :
    mapLookup dhcpValuesW "dhcpDomain" = some (.strPtr none) ∧
    mapLookup dhcpValuesW "requestTimeout" = some (.strPtr none) :=
  dhcp_request_timeout_nil_values {} infraStatusW cloudProfileConfigNoOpt {} {} clusterCoreOnly
    dhcpValuesW rfl rfl rfl (by decide)

/-! ## C10: floating-class emission -/

/-- Claim C10: a load-balancer class with non-empty floatingSubnetID and
empty floatingNetworkID gets its emitted floatingNetworkID from the
infrastructure status's floating pool ID; otherwise the class's own
floatingNetworkID is used when non-empty; and the `floatingClasses` key
is present in the output exactly when at least one load-balancer class
exists. -/
theorem floating_classes_emission (cpConfig : ControlPlaneConfig)
    (infraStatus : InfrastructureStatus) (cpc : Option CloudProfileConfig) (cp : ControlPlane)
    (c : Credentials) (cluster : Cluster) (cs : List LoadBalancerClass)
    (cl : LoadBalancerClass) (vs : ChartValues)
    (hcs : cpConfig.loadBalancerClasses = some cs)
    (hok : getConfigChartValues cpConfig infraStatus cpc cp c cluster = .ok vs) :
    (IsEmptyString cl.floatingSubnetID = false → IsEmptyString cl.floatingNetworkID = true →
      mapLookup (buildFloatingClass infraStatus cl) "floatingNetworkID" =
        some infraStatus.networks.floatingPool.id) ∧
    (IsEmptyString cl.floatingNetworkID = false →
      mapLookup (buildFloatingClass infraStatus cl) "floatingNetworkID" =
        some (cl.floatingNetworkID.getD "")) ∧
    (cs ≠ [] → mapLookup vs "floatingClasses" =
      some (.classList (cs.map (buildFloatingClass infraStatus)))) ∧
    (cs = [] → mapLookup vs "floatingClasses" = none) := by
  cases hsubnet : FindSubnetByPurpose infraStatus.networks.subnets PurposeNodes with
  | error msg => simp [getConfigChartValues, hsubnet] at hok
  | ok subnet =>
    have hres : resolvedLoadBalancerClasses cpConfig infraStatus cpc cluster = cs := by
      simp [resolvedLoadBalancerClasses, hcs]
    simp only [getConfigChartValues, hsubnet, hres] at hok
    injection hok with hok
    refine ⟨?_, ?_, ?_, ?_⟩
    · intro hfs hfn
      have hcond : (!IsEmptyString cl.floatingSubnetID &&
          IsEmptyString cl.floatingNetworkID) = true := by
        rw [hfs, hfn]; rfl
      simp only [buildFloatingClass, hcond, if_true]
      rw [mapLookup_SetStringValueFC_ne _ _ _ _ (by decide),
        mapLookup_SetStringValueFC_ne _ _ _ _ (by decide)]
      exact mapLookup_mapSet_self _ _ _
    · intro hfn
      have hcond : (!IsEmptyString cl.floatingSubnetID &&
          IsEmptyString cl.floatingNetworkID) = false := by
        rw [hfn]; simp
      simp only [buildFloatingClass, hcond, Bool.false_eq_true, if_false]
      rw [mapLookup_SetStringValueFC_ne _ _ _ _ (by decide),
        mapLookup_SetStringValueFC_ne _ _ _ _ (by decide)]
      exact mapLookup_SetStringValueFC_self _ _ _ hfn
    · intro hne
      rw [← hok]
      have hfc : (cs.map (buildFloatingClass infraStatus)).isEmpty = false := by
        cases cs with
        | nil => exact absurd rfl hne
        | cons a l => rfl
      rw [if_neg (by simp [hfc])]
      exact mapLookup_mapSet_self _ _ _
    · intro hnil
      subst hnil
      rw [← hok]
      simp [mapLookup, List.find?]

/-- The chart values produced with a present-but-empty load-balancer
class list. -/
def emptyClassesValuesW : ChartValues :=
  (getConfigChartValues { loadBalancerClasses := some [] } infraStatusW none {} {}
    {}).toOption.getD []

/-- Witness for C10 at concrete classes: pool-ID substitution when only
the floating subnet is set, the class's own floatingNetworkID otherwise,
`floatingClasses` present for the two-class input, and absent for the
empty class list. -/
theorem floating_classes_emission_witness :
    mapLookup (buildFloatingClass infraStatusW
        { name := "default", floatingSubnetID := some "subnet-a" }) "floatingNetworkID" =
      some "fip" ∧
    mapLookup (buildFloatingClass infraStatusW
        { name := "priv", floatingNetworkID := some "net-1" }) "floatingNetworkID" =
      some "net-1" ∧
    mapLookup lbValuesW "floatingClasses" = some (.classList
      ([{ name := "default", floatingSubnetID := some "subnet-a" },
        { name := "default", floatingSubnetID := some "subnet-b" }].map
        (buildFloatingClass infraStatusW))) ∧
    mapLookup emptyClassesValuesW "floatingClasses" = none := by
  refine ⟨?_, ?_, ?_, ?_⟩
  · exact (floating_classes_emission lbTwoDefaults infraStatusW none {} {} {}
      [{ name := "default", floatingSubnetID := some "subnet-a" },
       { name := "default", floatingSubnetID := some "subnet-b" }]
      { name := "default", floatingSubnetID := some "subnet-a" } lbValuesW rfl (by decide)).1
      (by decide) (by decide)
  · exact (floating_classes_emission lbTwoDefaults infraStatusW none {} {} {}
      [{ name := "default", floatingSubnetID := some "subnet-a" },
       { name := "default", floatingSubnetID := some "subnet-b" }]
      { name := "priv", floatingNetworkID := some "net-1" } lbValuesW rfl (by decide)).2.1
      (by decide)
  · exact (floating_classes_emission lbTwoDefaults infraStatusW none {} {} {}
      [{ name := "default", floatingSubnetID := some "subnet-a" },
       { name := "default", floatingSubnetID := some "subnet-b" }]
      { name := "default", floatingSubnetID := some "subnet-a" } lbValuesW rfl (by decide)).2.2.1
      (by decide)
  · exact (floating_classes_emission { loadBalancerClasses := some [] } infraStatusW none {} {}
      {} [] { name := "default" } emptyClassesValuesW rfl (by decide)).2.2.2 rfl

end Gardener
